import Mathlib

/-!
Shallow embedding of the indirect-draw generation, frustum culling,
top-level acceleration-structure update and frame-scheduling core of the
cg25-group25 renderer (ResourceManager.cpp, RayQueryPipeline.cpp,
FrustumCulling.hpp, SharedTypes.hpp, Scene.hpp).

Conventions of the embedding:
* C++ `float` scalars are modelled as exact rationals; `std::sqrt`
  (and the square root inside `glm::length`) is threaded through as an
  explicit function parameter `sqrtFn : ℚ → ℚ`, so every theorem holds
  for an arbitrary square-root implementation.
* `std::uint32_t` is modelled as ℕ and `std::int32_t` as ℤ; container
  sizes are assumed below 2^31 (as the claims do), so the
  `static_cast<std::int32_t>` on container sizes is the plain cast ℕ → ℤ.
* glm matrices are column major: `m[i][j]` is component `j` of column `i`.
* Per-slot persistently mapped buffers are modelled by the list of
  commands written by the most recent rebuild of that slot.
-/

set_option maxRecDepth 100000

attribute [local semireducible] Rat.add Rat.sub Rat.mul Rat.inv

namespace CG25

/-- Component of a glm::vec3 over exact rationals. -/
structure Vec3Q where
  x : ℚ
  y : ℚ
  z : ℚ
deriving DecidableEq

/-- Component of a glm::vec4 over exact rationals. -/
structure Vec4Q where
  x : ℚ
  y : ℚ
  z : ℚ
  w : ℚ
deriving DecidableEq

/-- glm::mat4, column major: `c0`–`c3` are the four columns. -/
structure Mat4Q where
  c0 : Vec4Q
  c1 : Vec4Q
  c2 : Vec4Q
  c3 : Vec4Q
deriving DecidableEq

def Vec3Q.add (a b : Vec3Q) : Vec3Q := ⟨a.x + b.x, a.y + b.y, a.z + b.z⟩

def Vec3Q.sub (a b : Vec3Q) : Vec3Q := ⟨a.x - b.x, a.y - b.y, a.z - b.z⟩

def Vec3Q.smul (s : ℚ) (a : Vec3Q) : Vec3Q := ⟨s * a.x, s * a.y, s * a.z⟩

/-- glm::dot on vec3. -/
def Vec3Q.dot (a b : Vec3Q) : ℚ := a.x * b.x + a.y * b.y + a.z * b.z

/-- The first three components of a vec4 / matrix column (glm::vec3(v)). -/
def Vec4Q.xyz (v : Vec4Q) : Vec3Q := ⟨v.x, v.y, v.z⟩

/-- Computes `m * glm::vec4(v, 1.0f)`: matrix-vector product with homogeneous 1. -/
def Mat4Q.mulPoint (m : Mat4Q) (v : Vec3Q) : Vec4Q :=
  ⟨m.c0.x * v.x + m.c1.x * v.y + m.c2.x * v.z + m.c3.x,
   m.c0.y * v.x + m.c1.y * v.y + m.c2.y * v.z + m.c3.y,
   m.c0.z * v.x + m.c1.z * v.y + m.c2.z * v.z + m.c3.z,
   m.c0.w * v.x + m.c1.w * v.y + m.c2.w * v.z + m.c3.w⟩

/-- The identity glm::mat4. -/
def Mat4Q.id : Mat4Q :=
  ⟨⟨1, 0, 0, 0⟩, ⟨0, 1, 0, 0⟩, ⟨0, 0, 1, 0⟩, ⟨0, 0, 0, 1⟩⟩

/-- Computes `glm::length v = std::sqrt (glm::dot v v)`, square root explicit. -/
def lengthQ (sqrtFn : ℚ → ℚ) (v : Vec3Q) : ℚ := sqrtFn (Vec3Q.dot v v)

/-- Kernel-reducible integer square root (largest `k` with `k*k ≤ n`),
used only on the small concrete inputs of witnesses. -/
def natSqrtLin (n : ℕ) : ℕ :=
  ((List.range (n + 1)).filter (fun k => k * k ≤ n)).foldr max 0

/-- An exact computable square root on ℚ used to instantiate witnesses:
it agrees with the real square root whenever numerator and denominator
are perfect squares (all concrete inputs below are chosen that way). -/
def ratSqrt (q : ℚ) : ℚ := (natSqrtLin q.num.toNat : ℚ) / (natSqrtLin q.den : ℚ)

/-- FrustumCulling.hpp `Plane`: a plane `normal ⬝ p + distance = 0`. -/
structure PlaneQ where
  normal : Vec3Q
  distance : ℚ
deriving DecidableEq

/-- Default plane used only as the `getD` fallback for list indexing. -/
def defaultPlaneQ : PlaneQ := ⟨⟨0, 0, 0⟩, 0⟩

/-- FrustumCulling.hpp `Plane::distanceToPoint`: signed distance. -/
def planeDist (p : PlaneQ) (v : Vec3Q) : ℚ := Vec3Q.dot p.normal v + p.distance

/-- FrustumCulling.hpp `Frustum`: six planes, in source order
Left, Right, Bottom, Top, Near, Far (indices 0–5). -/
structure FrustumQ where
  planes : List PlaneQ
deriving DecidableEq

/-- Normalization step of `Frustum::fromViewProjection`:
`plane.normal /= length; plane.distance /= length`. -/
def normalizePlane (sqrtFn : ℚ → ℚ) (p : PlaneQ) : PlaneQ :=
  let len := lengthQ sqrtFn p.normal
  ⟨⟨p.normal.x / len, p.normal.y / len, p.normal.z / len⟩, p.distance / len⟩

/-- FrustumCulling.hpp `Frustum::fromViewProjection`: Gribb–Hartmann
plane extraction (`viewProj[i][j]` is component `j` of column `i`),
followed by per-plane normalization.  Plane order: Left, Right, Bottom,
Top, Near, Far — the labels used in the source comments. -/
def FrustumQ.fromViewProjection (sqrtFn : ℚ → ℚ) (m : Mat4Q) : FrustumQ :=
  let pLeft : PlaneQ :=
    ⟨⟨m.c0.w + m.c0.x, m.c1.w + m.c1.x, m.c2.w + m.c2.x⟩, m.c3.w + m.c3.x⟩
  let pRight : PlaneQ :=
    ⟨⟨m.c0.w - m.c0.x, m.c1.w - m.c1.x, m.c2.w - m.c2.x⟩, m.c3.w - m.c3.x⟩
  let pBottom : PlaneQ :=
    ⟨⟨m.c0.w + m.c0.y, m.c1.w + m.c1.y, m.c2.w + m.c2.y⟩, m.c3.w + m.c3.y⟩
  let pTop : PlaneQ :=
    ⟨⟨m.c0.w - m.c0.y, m.c1.w - m.c1.y, m.c2.w - m.c2.y⟩, m.c3.w - m.c3.y⟩
  let pNear : PlaneQ :=
    ⟨⟨m.c0.w + m.c0.z, m.c1.w + m.c1.z, m.c2.w + m.c2.z⟩, m.c3.w + m.c3.z⟩
  let pFar : PlaneQ :=
    ⟨⟨m.c0.w - m.c0.z, m.c1.w - m.c1.z, m.c2.w - m.c2.z⟩, m.c3.w - m.c3.z⟩
  ⟨[pLeft, pRight, pBottom, pTop, pNear, pFar].map (normalizePlane sqrtFn)⟩

/-- The plane the source labels "Near" (index 4 of `Frustum::planes`). -/
def FrustumQ.nearPlane (f : FrustumQ) : PlaneQ := f.planes.getD 4 defaultPlaneQ

/-- The plane the source labels "Far" (index 5 of `Frustum::planes`). -/
def FrustumQ.farPlane (f : FrustumQ) : PlaneQ := f.planes.getD 5 defaultPlaneQ

/-- SharedTypes.hpp `Mesh` (GPU-facing fields used by the core). -/
structure MeshQ where
  boundingBoxMin : Vec3Q := ⟨0, 0, 0⟩
  boundingBoxMax : Vec3Q := ⟨0, 0, 0⟩
  baseVertex : ℕ := 0
  baseIndex : ℕ := 0
  vertexCount : ℕ := 0
  indexCount : ℕ := 0
  materialIndex : ℤ := -1
deriving DecidableEq

def defaultMeshQ : MeshQ := {}

/-- SharedTypes.hpp `Instance` (fields used by the core). -/
structure InstanceQ where
  transform : Mat4Q := Mat4Q.id
  inverseTransform : Mat4Q := Mat4Q.id
  meshIndex : ℤ := -1
  reflective : ℤ := 0
  castsShadows : ℤ := 0
  receivesLighting : ℤ := 1
  animated : ℤ := 0
deriving DecidableEq

/-- SharedTypes.hpp `Material` (fields used by the core; `alphaMode`:
0 = opaque, 1 = BLEND, 2 = MASK). -/
structure MaterialQ where
  alphaMode : ℤ := 0
  reflective : ℤ := 1
  castsShadows : ℤ := 1
  receivesLighting : ℤ := 1
deriving DecidableEq

def defaultMaterialQ : MaterialQ := {}

/-- SharedTypes.hpp `DrawIndexedIndirectCommand`. -/
structure DrawCmdQ where
  indexCount : ℕ
  instanceCount : ℕ
  firstIndex : ℕ
  vertexOffset : ℤ
  firstInstance : ℕ
deriving DecidableEq

/-- World-space bounding sphere of one instance, exactly as computed in
`ResourceManager::updateIndirectDrawBuffers` (lines 1696–1707): local
AABB center/extent, transformed center, radius scaled by the square
root of the largest squared column length of the 3×3 block. -/
def worldBoundingSphere (sqrtFn : ℚ → ℚ) (mesh : MeshQ) (inst : InstanceQ) :
    Vec3Q × ℚ :=
  let localCenter := Vec3Q.smul (1/2) (Vec3Q.add mesh.boundingBoxMin mesh.boundingBoxMax)
  let boxExtents := Vec3Q.sub mesh.boundingBoxMax mesh.boundingBoxMin
  let localRadius := lengthQ sqrtFn boxExtents * (1/2)
  let worldCenter := (inst.transform.mulPoint localCenter).xyz
  let col0 := inst.transform.c0.xyz
  let col1 := inst.transform.c1.xyz
  let col2 := inst.transform.c2.xyz
  let scale0Sq := Vec3Q.dot col0 col0
  let scale1Sq := Vec3Q.dot col1 col1
  let scale2Sq := Vec3Q.dot col2 col2
  let maxScaleSq := max scale0Sq (max scale1Sq scale2Sq)
  (worldCenter, localRadius * sqrtFn maxScaleSq)

/-- The per-instance frustum test of `updateIndirectDrawBuffers`:
`for (int i = 0; i < 5; ++i) if (dist < -worldRadius) visible = false`.
Only plane indices 0–4 of the six-plane array are consulted. -/
def sphereVisible (planes : List PlaneQ) (center : Vec3Q) (radius : ℚ) : Bool :=
  (List.range 5).all fun i =>
    !(decide (planeDist (planes.getD i defaultPlaneQ) center < -radius))

/-- Mirrors `const auto& mesh = meshes[meshIdx]`: the mesh an instance resolves
to (total via `getD`; the rebuild loop only reads it after the range
guard on `meshIndex` has passed). -/
def resolvedMesh (meshes : List MeshQ) (inst : InstanceQ) : MeshQ :=
  meshes.getD inst.meshIndex.toNat defaultMeshQ

/-- The loop body of the rebuild pass of `updateIndirectDrawBuffers`
for one instance: range-check the mesh index, range-check the resolved
mesh's material index, frustum-test the world bounding sphere, and on
success return the material's alpha mode together with the generated
`DrawIndexedIndirectCommand` (`instanceCount = 1`,
`firstInstance = instanceIdx`). `none` means the instance is skipped. -/
def cullTestInstance (sqrtFn : ℚ → ℚ) (meshes : List MeshQ)
    (materials : List MaterialQ) (planes : List PlaneQ)
    (instanceIdx : ℕ) (inst : InstanceQ) : Option (ℤ × DrawCmdQ) :=
  if inst.meshIndex < 0 ∨ (meshes.length : ℤ) ≤ inst.meshIndex then none
  else
    let mesh := resolvedMesh meshes inst
    if mesh.materialIndex < 0 ∨ (materials.length : ℤ) ≤ mesh.materialIndex then none
    else
      let sphere := worldBoundingSphere sqrtFn mesh inst
      if sphereVisible planes sphere.1 sphere.2 then
        some ((materials.getD mesh.materialIndex.toNat defaultMaterialQ).alphaMode,
          { indexCount := mesh.indexCount
            instanceCount := 1
            firstIndex := mesh.baseIndex
            vertexOffset := (mesh.baseVertex : ℤ)
            firstInstance := instanceIdx })
      else none

/-- Accumulator of the rebuild pass: commands written directly to the
front of the mapped buffer (`bufferPtr[opaqueCount++]`) and the side
vector `tempTransparent` that is memcpy'ed after them. -/
structure RebuildAcc where
  opaqueCmds : List DrawCmdQ
  transparentCmds : List DrawCmdQ
deriving DecidableEq

/-- Dispatch of one generated command: alpha mode 1 (BLEND) goes to the
transparent side vector if it is not full (`transparentCount <
maxTransparent`), anything else is written to the opaque range. -/
def rebuildStep (sqrtFn : ℚ → ℚ) (meshes : List MeshQ)
    (materials : List MaterialQ) (planes : List PlaneQ) (maxTransparent : ℕ)
    (acc : RebuildAcc) (instanceIdx : ℕ) (inst : InstanceQ) : RebuildAcc :=
  match cullTestInstance sqrtFn meshes materials planes instanceIdx inst with
  | none => acc
  | some amCmd =>
    if amCmd.1 = 1 then
      if acc.transparentCmds.length < maxTransparent then
        { acc with transparentCmds := acc.transparentCmds ++ [amCmd.2] }
      else acc
    else { acc with opaqueCmds := acc.opaqueCmds ++ [amCmd.2] }

/-- The instance loop of the rebuild pass, `instanceIdx` counting up. -/
def rebuildGo (sqrtFn : ℚ → ℚ) (meshes : List MeshQ)
    (materials : List MaterialQ) (planes : List PlaneQ) (maxTransparent : ℕ) :
    ℕ → List InstanceQ → RebuildAcc → RebuildAcc
  | _, [], acc => acc
  | idx, inst :: rest, acc =>
    rebuildGo sqrtFn meshes materials planes maxTransparent (idx + 1) rest
      (rebuildStep sqrtFn meshes materials planes maxTransparent acc idx inst)

/-- The full rebuild pass of `updateIndirectDrawBuffers` (the identical
code appears in both the camera-changed branch and the has-animated
branch of the source): `maxTransparent = min(instanceCount, 500u)`,
all instances processed in order starting from index 0. -/
def rebuildDrawCommands (sqrtFn : ℚ → ℚ) (meshes : List MeshQ)
    (materials : List MaterialQ) (instances : List InstanceQ)
    (planes : List PlaneQ) : RebuildAcc :=
  rebuildGo sqrtFn meshes materials planes (min instances.length 500) 0 instances
    ⟨[], []⟩

/-- Contents of the mapped indirect buffer after a rebuild: the opaque
commands at `[0, opaqueCount)` followed by the memcpy'ed transparent
commands at `[opaqueCount, opaqueCount + transparentCount)`. -/
def rebuildBuffer (acc : RebuildAcc) : List DrawCmdQ :=
  acc.opaqueCmds ++ acc.transparentCmds

/-- The value of `transparentCount` at the moment the rebuild pass of
`updateIndirectDrawBuffers` reaches instance `k`: the transparent count
accumulated by folding the first `k` instances (with the full pass's
`min(instanceCount, 500)` cap).  This is exactly the quantity the
source compares against `maxTransparent` when deciding whether
instance `k`'s BLEND command is kept or dropped. -/
def transparentCountBefore (sqrtFn : ℚ → ℚ) (meshes : List MeshQ)
    (materials : List MaterialQ) (instances : List InstanceQ)
    (planes : List PlaneQ) (k : ℕ) : ℕ :=
  (rebuildGo sqrtFn meshes materials planes (min instances.length 500) 0
    (instances.take k) ⟨[], []⟩).transparentCmds.length

/-- Alpha mode of the material referenced by an instance through its
mesh, with the same range guards as the rebuild loop; `none` when the
instance is not drawable. -/
def instanceAlphaMode (meshes : List MeshQ) (materials : List MaterialQ)
    (inst : InstanceQ) : Option ℤ :=
  if inst.meshIndex < 0 ∨ (meshes.length : ℤ) ≤ inst.meshIndex then none
  else
    let mesh := resolvedMesh meshes inst
    if mesh.materialIndex < 0 ∨ (materials.length : ℤ) ≤ mesh.materialIndex then none
    else some ((materials.getD mesh.materialIndex.toNat defaultMaterialQ).alphaMode)

/-- constants.hpp: `MAX_FRAMES_IN_FLIGHT = 2`. -/
def maxFramesInFlight : ℕ := 2

/-- The scene data consumed by the draw-command generator.  The camera
is represented by the view-projection matrix it hands to the core
(`scene.camera.getViewProjection()`); the glm `lookAt`/`perspective`
construction behind it is an external collaborator per the spec and is
abstracted to its resulting matrix.  `scene.camera.getFrustum()` is
`Frustum::fromViewProjection(getViewProjection())` (Scene.hpp). -/
structure SceneQ where
  meshes : List MeshQ
  instances : List InstanceQ
  materials : List MaterialQ
  cameraViewProj : Mat4Q

/-- Scene.hpp `CameraParameters::getFrustum`. -/
def sceneFrustum (sqrtFn : ℚ → ℚ) (scene : SceneQ) : FrustumQ :=
  FrustumQ.fromViewProjection sqrtFn scene.cameraViewProj

/-- The draw-generator state held by `ResourceManager`
(ResourceManager.hpp lines 164–172): one shared pair of draw counts
(`m_opaqueDrawCount`, `m_transparentDrawCount` are single fields, not
arrays), the shared `m_indirectDrawCount`, per-slot mapped indirect
buffers, and the per-slot camera cache/initialized flags.
`mappedEmpty` models `m_indirectDrawBuffersMapped.empty()`. -/
structure IndirectDrawState where
  mappedEmpty : Bool
  indirectDrawCount : ℕ
  opaqueDrawCount : ℕ
  transparentDrawCount : ℕ
  buffers : Fin maxFramesInFlight → List DrawCmdQ
  cachedCameraViewProj : Fin maxFramesInFlight → Mat4Q
  bufferInitialized : Fin maxFramesInFlight → Bool

/-- ResourceManager.hpp `getOpaqueDrawCount`: note it takes no
frame-slot argument — the count is a single shared value. -/
def getOpaqueDrawCount (s : IndirectDrawState) : ℕ := s.opaqueDrawCount

/-- ResourceManager.hpp `getTransparentDrawCount` (no slot argument). -/
def getTransparentDrawCount (s : IndirectDrawState) : ℕ := s.transparentDrawCount

/-- The camera-motion check of `updateIndirectDrawBuffers`
(`CAMERA_CHANGE_THRESHOLD = 0.0001f`, modelled as the exact rational). -/
def cameraChangeThreshold : ℚ := 1 / 10000

/-- Per-column element-wise `|a - b| > threshold` check. -/
def vec4DiffGt (t : ℚ) (a b : Vec4Q) : Bool :=
  decide (|a.x - b.x| > t) || decide (|a.y - b.y| > t) ||
  decide (|a.z - b.z| > t) || decide (|a.w - b.w| > t)

/-- The double loop over the 16 matrix elements (with early break)
checking whether any element moved by more than the threshold. -/
def mat4DiffGt (t : ℚ) (a b : Mat4Q) : Bool :=
  vec4DiffGt t a.c0 b.c0 || vec4DiffGt t a.c1 b.c1 ||
  vec4DiffGt t a.c2 b.c2 || vec4DiffGt t a.c3 b.c3

/-- The `cameraChanged` check of `updateIndirectDrawBuffers`: true when the slot
was never initialized, or some element of the current view-projection
differs from the slot's cached matrix by more than the threshold. -/
def cameraChangedCheck (s : IndirectDrawState) (frameIdx : Fin maxFramesInFlight)
    (current : Mat4Q) : Bool :=
  !(s.bufferInitialized frameIdx) ||
    mat4DiffGt cameraChangeThreshold current (s.cachedCameraViewProj frameIdx)

/-- Models `ResourceManager::updateIndirectDrawBuffers(scene, frameIdx)`
(ResourceManager.cpp lines 1626–1859).  Early-returns when the mapped
buffers are absent or `m_indirectDrawCount == 0`.  On a camera change
(or uninitialized slot) it rebuilds the slot's buffer, stores the
shared counts, and refreshes the slot's camera cache; otherwise, if any
instance is flagged animated it rebuilds the buffer and counts without
touching the cache; otherwise it does nothing. -/
def updateIndirectDrawBuffers (sqrtFn : ℚ → ℚ) (scene : SceneQ)
    (frameIdx : Fin maxFramesInFlight) (s : IndirectDrawState) :
    IndirectDrawState :=
  if s.mappedEmpty || s.indirectDrawCount == 0 then s
  else
    let currentViewProj := scene.cameraViewProj
    if cameraChangedCheck s frameIdx currentViewProj then
      let frustum := sceneFrustum sqrtFn scene
      let acc := rebuildDrawCommands sqrtFn scene.meshes scene.materials
        scene.instances frustum.planes
      { s with
        buffers := Function.update s.buffers frameIdx (rebuildBuffer acc)
        opaqueDrawCount := acc.opaqueCmds.length
        transparentDrawCount := acc.transparentCmds.length
        indirectDrawCount := acc.opaqueCmds.length + acc.transparentCmds.length
        cachedCameraViewProj :=
          Function.update s.cachedCameraViewProj frameIdx currentViewProj
        bufferInitialized := Function.update s.bufferInitialized frameIdx true }
    else if scene.instances.any (fun inst => inst.animated != 0) then
      let frustum := sceneFrustum sqrtFn scene
      let acc := rebuildDrawCommands sqrtFn scene.meshes scene.materials
        scene.instances frustum.planes
      { s with
        buffers := Function.update s.buffers frameIdx (rebuildBuffer acc)
        opaqueDrawCount := acc.opaqueCmds.length
        transparentDrawCount := acc.transparentCmds.length
        indirectDrawCount := acc.opaqueCmds.length + acc.transparentCmds.length }
    else s

/-- The `ResourceManager::createBLAS` geometry-flag computation per mesh
(ResourceManager.cpp lines 973–985): flags start at 0 and are set to
`eOpaque` only if `materialIndex != -1` and the referenced material's
`alphaMode == 0`. Returns `true` iff the opaque flag is set. -/
def blasGeometryFlagIsOpaque (materials : List MaterialQ) (mesh : MeshQ) : Bool :=
  if mesh.materialIndex != -1 then
    if (materials.getD mesh.materialIndex.toNat defaultMaterialQ).alphaMode == 0
    then true else false
  else false

/-- The per-mesh opaque-flag assignments made by the `createBLAS` loop,
in mesh order. -/
def createBLASGeometryFlags (materials : List MaterialQ) (meshes : List MeshQ) :
    List Bool :=
  meshes.map (blasGeometryFlagIsOpaque materials)

/-- The 3×4 row-major `VkTransformMatrixKHR` written for one instance by
`recordTLASUpdate`: row `j` is `(t[0][j], t[1][j], t[2][j], t[3][j])`. -/
def transformRows (t : Mat4Q) : List (List ℚ) :=
  [[t.c0.x, t.c1.x, t.c2.x, t.c3.x],
   [t.c0.y, t.c1.y, t.c2.y, t.c3.y],
   [t.c0.z, t.c1.z, t.c2.z, t.c3.z]]

/-- The writes `recordTLASUpdate` performs into the slot's persistently
mapped instance buffer (`instancesPtr[i].transform = ...`): one write
per instance that is animated or, on the initial build, every instance.
Returned as `(index, transform-rows)` pairs in loop order. -/
def tlasInstanceWrites (instances : List InstanceQ) (initialBuild : Bool) :
    List (ℕ × List (List ℚ)) :=
  (List.range instances.length).filterMap fun i =>
    let inst := instances.getD i {}
    if inst.animated == 0 && !initialBuild then none
    else some (i, transformRows inst.transform)

/-- GPU commands `recordTLASUpdate` can record into the command buffer. -/
inductive TLASCmd where
  | preBuildBarrier
  | buildTopLevelUpdate (primitiveCount : ℕ)
  | postBuildBarrier
deriving DecidableEq

/-- Models `ResourceManager::recordTLASUpdate(cmd, scene, initialBuild,
frameIdx)` (ResourceManager.cpp lines 1406–1516), modelled by its two
observable effects: the writes into the slot's mapped instance buffer
and the sequence of commands recorded into `cmd`.  When
`updatedCount == 0 && !initialBuild` it returns before recording
anything; otherwise it records the pre-build barrier, the top-level
build in update mode (`primitiveCount = instances.size()`), and the
post-build barrier. -/
def recordTLASUpdate (instances : List InstanceQ) (initialBuild : Bool) :
    List (ℕ × List (List ℚ)) × List TLASCmd :=
  let writes := tlasInstanceWrites instances initialBuild
  if writes.length == 0 && !initialBuild then (writes, [])
  else
    (writes,
     [TLASCmd.preBuildBarrier, TLASCmd.buildTopLevelUpdate instances.length,
      TLASCmd.postBuildBarrier])

/-- The CPU-side steps of `RayQueryPipeline::drawFrame` in program
order (RayQueryPipeline.cpp lines 733–800).  `sampleClock n` is the
`n`-th call to `high_resolution_clock::now()` in the body (there is
exactly one, at function entry, producing `currentTime`); the ℕ
payloads of `computeTime`, `computeRenderTime` and
`updateSceneResources` name the clock sample the value they compute or
consume is derived from. -/
inductive FrameEvent where
  | sampleClock (sampleIdx : ℕ)
  | computeTime (fromSample : ℕ)
  | updateJitter
  | waitFence
  | computeRenderTime (fromSample : ℕ)
  | acquireImage
  | updateSceneResources (timeFromSample : ℕ)
  | updatePostDescriptors
  | resetFences
  | recordCommands
  | submit
  | present
  | advanceFrame
deriving DecidableEq, BEq

/-- The statement order of `RayQueryPipeline::drawFrame`:
`currentTime = now()`; `time = duration(currentTime - startTime)`;
`updateJitter()`; the `waitForFences` loop; `renderTime =
duration(currentTime - startTime) * 0.5f` (note: it reuses the entry
sample); `acquireNextImage`; `updateSceneResources(scene, time, ...)`;
descriptor updates; `resetFences`; command recording; submit; present;
index advance. -/
def drawFrameEvents : List FrameEvent :=
  [FrameEvent.sampleClock 0,
   FrameEvent.computeTime 0,
   FrameEvent.updateJitter,
   FrameEvent.waitFence,
   FrameEvent.computeRenderTime 0,
   FrameEvent.acquireImage,
   FrameEvent.updateSceneResources 0,
   FrameEvent.updatePostDescriptors,
   FrameEvent.resetFences,
   FrameEvent.recordCommands,
   FrameEvent.submit,
   FrameEvent.present,
   FrameEvent.advanceFrame]

/-- Position of the first occurrence of an event in the drawFrame body. -/
def eventPos (e : FrameEvent) : ℕ := drawFrameEvents.indexOf e

/-- Recognizes clock-sampling events. -/
def isClockSample : FrameEvent → Bool
  | FrameEvent.sampleClock _ => true
  | _ => false

/-- Recognizes the `updateSceneResources` call event. -/
def isUpdateSceneResources : FrameEvent → Bool
  | FrameEvent.updateSceneResources _ => true
  | _ => false

/-- Number of commands in a buffer that reference scene instance `k`
(via `firstInstance`, which the generator sets to the instance index). -/
def cmdCount (k : ℕ) (cmds : List DrawCmdQ) : ℕ :=
  cmds.countP (fun c => c.firstInstance == k)

/-!  Concrete scenarios used by counterexamples and witnesses. -/

/-- A default-constructed (opaque) material. -/
def wMatOpaqueQ : MaterialQ := {}

/-- A BLEND material. -/
def wMatBlend : MaterialQ := { alphaMode := 1 }

/-- A mesh whose AABB is the single point `(0,0,-2)` (radius-0 bounding
sphere), referencing material 0. -/
def wMeshNear : MeshQ :=
  { boundingBoxMin := ⟨0, 0, -2⟩, boundingBoxMax := ⟨0, 0, -2⟩,
    indexCount := 3, materialIndex := 0 }

/-- A mesh whose AABB is the single point at the origin, material 0. -/
def wMeshOrigin : MeshQ := { indexCount := 3, materialIndex := 0 }

/-- An identity-transform instance of mesh 0. -/
def wInstOrigin : InstanceQ := { meshIndex := 0 }

/-- The frustum of the identity view-projection matrix: unit cube
planes; its near plane is `{(0,0,1), 1}` and far plane `{(0,0,-1), 1}`. -/
def wFrustumId : FrustumQ := FrustumQ.fromViewProjection ratSqrt Mat4Q.id

/-- The planes of `wFrustumId` with only the near plane (index 4) replaced by a
far-away permissive plane; all other planes unchanged. -/
def wPlanesRelaxedNear : List PlaneQ :=
  wFrustumId.planes.take 4 ++ [⟨⟨0, 0, 1⟩, 100⟩] ++ wFrustumId.planes.drop 5

/-- Six identical always-satisfied planes (distance 1, zero normal). -/
def wPlanesPermissive : List PlaneQ := List.replicate 6 ⟨⟨0, 0, 0⟩, 1⟩

/-- A single-instance scene (origin mesh, opaque material, identity
camera) in which the instance is visible. -/
def wSceneOne : SceneQ := ⟨[wMeshOrigin], [wInstOrigin], [wMatOpaqueQ], Mat4Q.id⟩

/-- Slot 0. -/
def wSlot0 : Fin maxFramesInFlight := ⟨0, by decide⟩

/-- Slot 1. -/
def wSlot1 : Fin maxFramesInFlight := ⟨1, by decide⟩

/-- A generator state that is ready (buffers mapped, nonzero count) but
whose slots were never initialized. -/
def wStateFresh : IndirectDrawState :=
  ⟨false, 1, 0, 0, fun _ => [], fun _ => Mat4Q.id, fun _ => false⟩

/-- A generator state in steady state: both slots initialized with the
identity camera cached, one opaque command counted. -/
def wStateSteady : IndirectDrawState :=
  ⟨false, 1, 1, 0, fun _ => [], fun _ => Mat4Q.id, fun _ => true⟩

/-!  ### Lemmas about the culling test -/

theorem sphereVisible_iff (planes : List PlaneQ) (center : Vec3Q) (radius : ℚ) :
    sphereVisible planes center radius = true ↔
      ∀ i, i < 5 → ¬(planeDist (planes.getD i defaultPlaneQ) center < -radius) := by
  simp [sphereVisible, List.all_eq_true, List.mem_range]

theorem cullTestInstance_firstInstance {sqrtFn : ℚ → ℚ} {meshes : List MeshQ}
    {materials : List MaterialQ} {planes : List PlaneQ} {idx : ℕ}
    {inst : InstanceQ} {am : ℤ} {cmd : DrawCmdQ}
    (h : cullTestInstance sqrtFn meshes materials planes idx inst = some (am, cmd)) :
    cmd.firstInstance = idx := by
  simp only [cullTestInstance] at h
  split at h
  · exact absurd h (by simp)
  · split at h
    · exact absurd h (by simp)
    · split at h
      · simp only [Option.some.injEq, Prod.mk.injEq] at h
        obtain ⟨-, rfl⟩ := h
        rfl
      · exact absurd h (by simp)

theorem cullTestInstance_alphaMode {sqrtFn : ℚ → ℚ} {meshes : List MeshQ}
    {materials : List MaterialQ} {planes : List PlaneQ} {idx : ℕ}
    {inst : InstanceQ} {am : ℤ} {cmd : DrawCmdQ}
    (h : cullTestInstance sqrtFn meshes materials planes idx inst = some (am, cmd)) :
    instanceAlphaMode meshes materials inst = some am := by
  simp only [cullTestInstance] at h
  simp only [instanceAlphaMode]
  split at h
  · exact absurd h (by simp)
  · split at h
    · exact absurd h (by simp)
    · rename_i h1 h2
      rw [if_neg h1, if_neg h2]
      split at h
      · simp only [Option.some.injEq, Prod.mk.injEq] at h
        obtain ⟨rfl, -⟩ := h
        rfl
      · exact absurd h (by simp)

theorem cullTestInstance_none_of_culled {sqrtFn : ℚ → ℚ} {meshes : List MeshQ}
    {materials : List MaterialQ} {planes : List PlaneQ} {idx : ℕ}
    {inst : InstanceQ}
    (h : ∃ i, i < 5 ∧
      planeDist (planes.getD i defaultPlaneQ)
          (worldBoundingSphere sqrtFn (resolvedMesh meshes inst) inst).1 <
        -(worldBoundingSphere sqrtFn (resolvedMesh meshes inst) inst).2) :
    cullTestInstance sqrtFn meshes materials planes idx inst = none := by
  obtain ⟨i, hi, hlt⟩ := h
  have hvis : ¬(sphereVisible planes
      (worldBoundingSphere sqrtFn (resolvedMesh meshes inst) inst).1
      (worldBoundingSphere sqrtFn (resolvedMesh meshes inst) inst).2 = true) := by
    intro hcon
    exact ((sphereVisible_iff _ _ _).1 hcon i hi) hlt
  simp only [cullTestInstance]
  split
  · rfl
  · split
    · rfl
    · simp [hvis]

theorem cullTestInstance_some_of_visible {sqrtFn : ℚ → ℚ} {meshes : List MeshQ}
    {materials : List MaterialQ} {planes : List PlaneQ} {idx : ℕ}
    {inst : InstanceQ}
    (hm : ¬(inst.meshIndex < 0 ∨ (meshes.length : ℤ) ≤ inst.meshIndex))
    (hmat : ¬((resolvedMesh meshes inst).materialIndex < 0 ∨
      (materials.length : ℤ) ≤ (resolvedMesh meshes inst).materialIndex))
    (hvis : sphereVisible planes
      (worldBoundingSphere sqrtFn (resolvedMesh meshes inst) inst).1
      (worldBoundingSphere sqrtFn (resolvedMesh meshes inst) inst).2 = true) :
    cullTestInstance sqrtFn meshes materials planes idx inst =
      some ((materials.getD (resolvedMesh meshes inst).materialIndex.toNat
              defaultMaterialQ).alphaMode,
        { indexCount := (resolvedMesh meshes inst).indexCount
          instanceCount := 1
          firstIndex := (resolvedMesh meshes inst).baseIndex
          vertexOffset := ((resolvedMesh meshes inst).baseVertex : ℤ)
          firstInstance := idx }) := by
  simp only [cullTestInstance]
  rw [if_neg hm, if_neg hmat, if_pos hvis]

/-!  ### Lemmas about the rebuild fold -/

section RebuildLemmas

variable (sqrtFn : ℚ → ℚ) (meshes : List MeshQ) (materials : List MaterialQ)
variable (planes : List PlaneQ) (maxT : ℕ)

theorem rebuildGo_cons (idx : ℕ) (inst : InstanceQ) (rest : List InstanceQ)
    (acc : RebuildAcc) :
    rebuildGo sqrtFn meshes materials planes maxT idx (inst :: rest) acc =
      rebuildGo sqrtFn meshes materials planes maxT (idx + 1) rest
        (rebuildStep sqrtFn meshes materials planes maxT acc idx inst) := rfl

theorem rebuildStep_cases (acc : RebuildAcc) (idx : ℕ) (inst : InstanceQ) :
    rebuildStep sqrtFn meshes materials planes maxT acc idx inst = acc ∨
    ∃ am cmd,
      cullTestInstance sqrtFn meshes materials planes idx inst = some (am, cmd) ∧
      ((¬am = 1 ∧ rebuildStep sqrtFn meshes materials planes maxT acc idx inst =
          ⟨acc.opaqueCmds ++ [cmd], acc.transparentCmds⟩) ∨
       (am = 1 ∧ acc.transparentCmds.length < maxT ∧
        rebuildStep sqrtFn meshes materials planes maxT acc idx inst =
          ⟨acc.opaqueCmds, acc.transparentCmds ++ [cmd]⟩)) := by
  rcases h : cullTestInstance sqrtFn meshes materials planes idx inst with - | ⟨am, cmd⟩
  · left
    simp [rebuildStep, h]
  · by_cases h1 : am = 1
    · by_cases h2 : acc.transparentCmds.length < maxT
      · exact Or.inr ⟨am, cmd, rfl, Or.inr ⟨h1, h2, by simp [rebuildStep, h, h1, h2]⟩⟩
      · left
        simp [rebuildStep, h, h1, h2]
    · exact Or.inr ⟨am, cmd, rfl, Or.inl ⟨h1, by simp [rebuildStep, h, h1]⟩⟩

theorem rebuildGo_opaque_extends :
    ∀ (l : List InstanceQ) (idx : ℕ) (acc : RebuildAcc),
      ∃ t, (rebuildGo sqrtFn meshes materials planes maxT idx l acc).opaqueCmds =
        acc.opaqueCmds ++ t := by
  intro l
  induction l with
  | nil => exact fun idx acc => ⟨[], by simp [rebuildGo]⟩
  | cons inst rest ih =>
    intro idx acc
    obtain ⟨t, ht⟩ := ih (idx + 1)
      (rebuildStep sqrtFn meshes materials planes maxT acc idx inst)
    rw [rebuildGo_cons] at *
    rcases rebuildStep_cases sqrtFn meshes materials planes maxT acc idx inst with
      hs | ⟨am, cmd, hcull, ⟨-, hstep⟩ | ⟨-, -, hstep⟩⟩
    · exact ⟨t, by rw [ht, hs]⟩
    · exact ⟨cmd :: t, by rw [ht, hstep]; simp⟩
    · exact ⟨t, by rw [ht, hstep]⟩

theorem rebuildGo_transparent_extends :
    ∀ (l : List InstanceQ) (idx : ℕ) (acc : RebuildAcc),
      ∃ t, (rebuildGo sqrtFn meshes materials planes maxT idx l acc).transparentCmds =
        acc.transparentCmds ++ t := by
  intro l
  induction l with
  | nil => exact fun idx acc => ⟨[], by simp [rebuildGo]⟩
  | cons inst rest ih =>
    intro idx acc
    obtain ⟨t, ht⟩ := ih (idx + 1)
      (rebuildStep sqrtFn meshes materials planes maxT acc idx inst)
    rw [rebuildGo_cons] at *
    rcases rebuildStep_cases sqrtFn meshes materials planes maxT acc idx inst with
      hs | ⟨am, cmd, hcull, ⟨-, hstep⟩ | ⟨-, -, hstep⟩⟩
    · exact ⟨t, by rw [ht, hs]⟩
    · exact ⟨t, by rw [ht, hstep]⟩
    · exact ⟨cmd :: t, by rw [ht, hstep]; simp⟩

theorem rebuildGo_opaque_mem :
    ∀ (l : List InstanceQ) (idx : ℕ) (acc : RebuildAcc) (c : DrawCmdQ),
      c ∈ (rebuildGo sqrtFn meshes materials planes maxT idx l acc).opaqueCmds →
      c ∈ acc.opaqueCmds ∨
        ∃ j inst am, l.get? j = some inst ∧
          cullTestInstance sqrtFn meshes materials planes (idx + j) inst =
            some (am, c) ∧ ¬am = 1 := by
  intro l
  induction l with
  | nil =>
    intro idx acc c hc
    left
    simpa [rebuildGo] using hc
  | cons inst rest ih =>
    intro idx acc c hc
    rw [rebuildGo_cons] at hc
    rcases ih (idx + 1) _ c hc with hmem | ⟨j, inst', am, hj, hcull, ham⟩
    · rcases rebuildStep_cases sqrtFn meshes materials planes maxT acc idx inst with
        hs | ⟨am, cmd, hcull, ⟨ham, hstep⟩ | ⟨-, -, hstep⟩⟩
      · rw [hs] at hmem
        exact Or.inl hmem
      · rw [hstep] at hmem
        simp only [List.mem_append, List.mem_singleton] at hmem
        rcases hmem with h | rfl
        · exact Or.inl h
        · exact Or.inr ⟨0, inst, am, by simp, by simpa using hcull, ham⟩
      · rw [hstep] at hmem
        exact Or.inl hmem
    · refine Or.inr ⟨j + 1, inst', am, by simpa using hj, ?_, ham⟩
      rw [show idx + (j + 1) = idx + 1 + j by omega]
      exact hcull

theorem rebuildGo_transparent_mem :
    ∀ (l : List InstanceQ) (idx : ℕ) (acc : RebuildAcc) (c : DrawCmdQ),
      c ∈ (rebuildGo sqrtFn meshes materials planes maxT idx l acc).transparentCmds →
      c ∈ acc.transparentCmds ∨
        ∃ j inst, l.get? j = some inst ∧
          cullTestInstance sqrtFn meshes materials planes (idx + j) inst =
            some (1, c) := by
  intro l
  induction l with
  | nil =>
    intro idx acc c hc
    left
    simpa [rebuildGo] using hc
  | cons inst rest ih =>
    intro idx acc c hc
    rw [rebuildGo_cons] at hc
    rcases ih (idx + 1) _ c hc with hmem | ⟨j, inst', hj, hcull⟩
    · rcases rebuildStep_cases sqrtFn meshes materials planes maxT acc idx inst with
        hs | ⟨am, cmd, hcull, ⟨-, hstep⟩ | ⟨ham, -, hstep⟩⟩
      · rw [hs] at hmem
        exact Or.inl hmem
      · rw [hstep] at hmem
        exact Or.inl hmem
      · rw [hstep] at hmem
        simp only [List.mem_append, List.mem_singleton] at hmem
        rcases hmem with h | rfl
        · exact Or.inl h
        · subst ham
          exact Or.inr ⟨0, inst, by simp, by simpa using hcull⟩
    · refine Or.inr ⟨j + 1, inst', by simpa using hj, ?_⟩
      rw [show idx + (j + 1) = idx + 1 + j by omega]
      exact hcull

theorem rebuildGo_opaque_included :
    ∀ (l : List InstanceQ) (idx : ℕ) (acc : RebuildAcc) (j : ℕ)
      (inst : InstanceQ) (am : ℤ) (cmd : DrawCmdQ),
      l.get? j = some inst →
      cullTestInstance sqrtFn meshes materials planes (idx + j) inst =
        some (am, cmd) →
      ¬am = 1 →
      cmd ∈ (rebuildGo sqrtFn meshes materials planes maxT idx l acc).opaqueCmds := by
  intro l
  induction l with
  | nil =>
    intro idx acc j inst am cmd hj
    simp at hj
  | cons inst0 rest ih =>
    intro idx acc j inst am cmd hj hcull ham
    rw [rebuildGo_cons]
    cases j with
    | zero =>
      rw [List.get?_cons_zero, Option.some.injEq] at hj
      subst hj
      have hcull0 : cullTestInstance sqrtFn meshes materials planes idx inst0 =
          some (am, cmd) := by simpa using hcull
      have hstep : (rebuildStep sqrtFn meshes materials planes maxT acc idx
          inst0).opaqueCmds = acc.opaqueCmds ++ [cmd] := by
        simp [rebuildStep, hcull0, ham]
      obtain ⟨t, ht⟩ := rebuildGo_opaque_extends sqrtFn meshes materials planes maxT
        rest (idx + 1) (rebuildStep sqrtFn meshes materials planes maxT acc idx inst0)
      rw [ht, hstep]
      simp
    | succ j' =>
      refine ih (idx + 1) _ j' inst am cmd (by simpa using hj) ?_ ham
      rw [show idx + 1 + j' = idx + (j' + 1) by omega]
      exact hcull

theorem rebuildGo_transparent_included :
    ∀ (l : List InstanceQ) (idx : ℕ) (acc : RebuildAcc) (j : ℕ)
      (inst : InstanceQ) (cmd : DrawCmdQ),
      l.get? j = some inst →
      cullTestInstance sqrtFn meshes materials planes (idx + j) inst =
        some (1, cmd) →
      (rebuildGo sqrtFn meshes materials planes maxT idx l acc).transparentCmds.length
        < maxT →
      cmd ∈ (rebuildGo sqrtFn meshes materials planes maxT idx l acc).transparentCmds := by
  intro l
  induction l with
  | nil =>
    intro idx acc j inst cmd hj
    simp at hj
  | cons inst0 rest ih =>
    intro idx acc j inst cmd hj hcull hroomFinal
    rw [rebuildGo_cons] at hroomFinal ⊢
    cases j with
    | zero =>
      rw [List.get?_cons_zero, Option.some.injEq] at hj
      subst hj
      have hcull0 : cullTestInstance sqrtFn meshes materials planes idx inst0 =
          some (1, cmd) := by simpa using hcull
      obtain ⟨t, ht⟩ := rebuildGo_transparent_extends sqrtFn meshes materials planes
        maxT rest (idx + 1)
        (rebuildStep sqrtFn meshes materials planes maxT acc idx inst0)
      by_cases hroom : acc.transparentCmds.length < maxT
      · have hstep : (rebuildStep sqrtFn meshes materials planes maxT acc idx
            inst0).transparentCmds = acc.transparentCmds ++ [cmd] := by
          simp [rebuildStep, hcull0, hroom]
        rw [ht, hstep]
        simp
      · exfalso
        have hstep : (rebuildStep sqrtFn meshes materials planes maxT acc idx
            inst0).transparentCmds = acc.transparentCmds := by
          simp [rebuildStep, hcull0, hroom]
        rw [ht, hstep] at hroomFinal
        simp only [List.length_append] at hroomFinal
        omega
    | succ j' =>
      refine ih (idx + 1) _ j' inst cmd (by simpa using hj) ?_ hroomFinal
      rw [show idx + 1 + j' = idx + (j' + 1) by omega]
      exact hcull

theorem cmdCount_append (k : ℕ) (l1 l2 : List DrawCmdQ) :
    cmdCount k (l1 ++ l2) = cmdCount k l1 + cmdCount k l2 := by
  simp [cmdCount, List.countP_append]

theorem rebuildStep_cmdCount_ne (acc : RebuildAcc) (idx : ℕ) (inst : InstanceQ)
    (k : ℕ) (hne : ¬idx = k) :
    cmdCount k (rebuildBuffer
        (rebuildStep sqrtFn meshes materials planes maxT acc idx inst)) =
      cmdCount k (rebuildBuffer acc) := by
  rcases rebuildStep_cases sqrtFn meshes materials planes maxT acc idx inst with
    hs | ⟨am, cmd, hcull, ⟨-, hstep⟩ | ⟨-, -, hstep⟩⟩
  · rw [hs]
  · have hfi : cmd.firstInstance = idx := cullTestInstance_firstInstance hcull
    rw [hstep]
    simp [rebuildBuffer, cmdCount, List.countP_append, List.countP_cons, hfi, hne]
  · have hfi : cmd.firstInstance = idx := cullTestInstance_firstInstance hcull
    rw [hstep]
    simp [rebuildBuffer, cmdCount, List.countP_append, List.countP_cons, hfi, hne]

theorem rebuildStep_cmdCount_le (acc : RebuildAcc) (idx : ℕ) (inst : InstanceQ)
    (k : ℕ) :
    cmdCount k (rebuildBuffer
        (rebuildStep sqrtFn meshes materials planes maxT acc idx inst)) ≤
      cmdCount k (rebuildBuffer acc) + 1 := by
  rcases rebuildStep_cases sqrtFn meshes materials planes maxT acc idx inst with
    hs | ⟨am, cmd, hcull, ⟨-, hstep⟩ | ⟨-, -, hstep⟩⟩
  · rw [hs]
    omega
  · rw [hstep]
    simp only [rebuildBuffer, cmdCount, List.countP_append, List.countP_cons,
      List.countP_nil]
    split <;> omega
  · rw [hstep]
    simp only [rebuildBuffer, cmdCount, List.countP_append, List.countP_cons,
      List.countP_nil]
    split <;> omega

theorem rebuildGo_cmdCount_high :
    ∀ (l : List InstanceQ) (idx : ℕ) (acc : RebuildAcc) (k : ℕ), k < idx →
      cmdCount k (rebuildBuffer
          (rebuildGo sqrtFn meshes materials planes maxT idx l acc)) =
        cmdCount k (rebuildBuffer acc) := by
  intro l
  induction l with
  | nil =>
    intro idx acc k hk
    simp [rebuildGo]
  | cons inst rest ih =>
    intro idx acc k hk
    rw [rebuildGo_cons, ih (idx + 1) _ k (by omega),
      rebuildStep_cmdCount_ne sqrtFn meshes materials planes maxT acc idx inst k
        (by omega)]

theorem rebuildGo_cmdCount_le_one :
    ∀ (l : List InstanceQ) (idx : ℕ) (acc : RebuildAcc) (k : ℕ),
      cmdCount k (rebuildBuffer
          (rebuildGo sqrtFn meshes materials planes maxT idx l acc)) ≤
        cmdCount k (rebuildBuffer acc) + 1 := by
  intro l
  induction l with
  | nil =>
    intro idx acc k
    simp [rebuildGo]
  | cons inst rest ih =>
    intro idx acc k
    rw [rebuildGo_cons]
    by_cases hik : idx = k
    · subst hik
      rw [rebuildGo_cmdCount_high sqrtFn meshes materials planes maxT rest
        (idx + 1) _ idx (by omega)]
      exact rebuildStep_cmdCount_le sqrtFn meshes materials planes maxT acc idx
        inst idx
    · calc cmdCount k (rebuildBuffer (rebuildGo sqrtFn meshes materials planes
            maxT (idx + 1) rest
            (rebuildStep sqrtFn meshes materials planes maxT acc idx inst))) ≤
          cmdCount k (rebuildBuffer
            (rebuildStep sqrtFn meshes materials planes maxT acc idx inst)) + 1 :=
            ih (idx + 1) _ k
        _ = cmdCount k (rebuildBuffer acc) + 1 := by
            rw [rebuildStep_cmdCount_ne sqrtFn meshes materials planes maxT acc
              idx inst k hik]

theorem rebuildStep_length_le (acc : RebuildAcc) (idx : ℕ) (inst : InstanceQ) :
    (rebuildStep sqrtFn meshes materials planes maxT acc idx inst).opaqueCmds.length +
      (rebuildStep sqrtFn meshes materials planes maxT acc
        idx inst).transparentCmds.length ≤
      acc.opaqueCmds.length + acc.transparentCmds.length + 1 := by
  rcases rebuildStep_cases sqrtFn meshes materials planes maxT acc idx inst with
    hs | ⟨am, cmd, hcull, ⟨-, hstep⟩ | ⟨-, -, hstep⟩⟩
  · rw [hs]
    omega
  · rw [hstep]
    simp
    omega
  · rw [hstep]
    simp
    omega

theorem rebuildGo_length_le :
    ∀ (l : List InstanceQ) (idx : ℕ) (acc : RebuildAcc),
      (rebuildGo sqrtFn meshes materials planes maxT idx l acc).opaqueCmds.length +
        (rebuildGo sqrtFn meshes materials planes maxT idx
          l acc).transparentCmds.length ≤
        acc.opaqueCmds.length + acc.transparentCmds.length + l.length := by
  intro l
  induction l with
  | nil =>
    intro idx acc
    simp [rebuildGo]
  | cons inst rest ih =>
    intro idx acc
    rw [rebuildGo_cons]
    calc (rebuildGo sqrtFn meshes materials planes maxT (idx + 1) rest
          (rebuildStep sqrtFn meshes materials planes maxT acc idx
            inst)).opaqueCmds.length +
        (rebuildGo sqrtFn meshes materials planes maxT (idx + 1) rest
          (rebuildStep sqrtFn meshes materials planes maxT acc idx
            inst)).transparentCmds.length ≤
        (rebuildStep sqrtFn meshes materials planes maxT acc idx
          inst).opaqueCmds.length +
        (rebuildStep sqrtFn meshes materials planes maxT acc idx
          inst).transparentCmds.length + rest.length := ih (idx + 1) _
      _ ≤ acc.opaqueCmds.length + acc.transparentCmds.length + 1 + rest.length := by
          have := rebuildStep_length_le sqrtFn meshes materials planes maxT acc
            idx inst
          omega
      _ = acc.opaqueCmds.length + acc.transparentCmds.length +
          (inst :: rest).length := by simp; omega

theorem rebuildStep_transparent_cap (acc : RebuildAcc) (idx : ℕ)
    (inst : InstanceQ) :
    (rebuildStep sqrtFn meshes materials planes maxT acc idx
        inst).transparentCmds.length ≤
      max acc.transparentCmds.length maxT := by
  rcases rebuildStep_cases sqrtFn meshes materials planes maxT acc idx inst with
    hs | ⟨am, cmd, hcull, ⟨-, hstep⟩ | ⟨-, hroom, hstep⟩⟩
  · rw [hs]
    omega
  · rw [hstep]
    simp
  · rw [hstep]
    simp only [List.length_append, List.length_singleton]
    omega

theorem rebuildGo_transparent_cap :
    ∀ (l : List InstanceQ) (idx : ℕ) (acc : RebuildAcc),
      (rebuildGo sqrtFn meshes materials planes maxT idx
          l acc).transparentCmds.length ≤
        max acc.transparentCmds.length maxT := by
  intro l
  induction l with
  | nil =>
    intro idx acc
    simp [rebuildGo]
  | cons inst rest ih =>
    intro idx acc
    rw [rebuildGo_cons]
    have h1 := ih (idx + 1)
      (rebuildStep sqrtFn meshes materials planes maxT acc idx inst)
    have h2 := rebuildStep_transparent_cap sqrtFn meshes materials planes maxT
      acc idx inst
    omega

end RebuildLemmas

/-!  ### Invariance of the rebuild in the sixth (far) plane -/

theorem getD_take_five (planes : List PlaneQ) (i : ℕ) (hi : i < 5) :
    (planes.take 5).getD i defaultPlaneQ = planes.getD i defaultPlaneQ := by
  rw [List.getD_eq_getElem?_getD, List.getD_eq_getElem?_getD,
    List.getElem?_take_of_lt hi]

theorem sphereVisible_take_five (planes : List PlaneQ) (center : Vec3Q)
    (radius : ℚ) :
    sphereVisible (planes.take 5) center radius =
      sphereVisible planes center radius := by
  apply Bool.eq_iff_iff.mpr
  simp only [sphereVisible, List.all_eq_true, List.mem_range]
  constructor <;> intro h i hi
  · rw [← getD_take_five planes i hi]
    exact h i hi
  · rw [getD_take_five planes i hi]
    exact h i hi

theorem cullTestInstance_take_five (sqrtFn : ℚ → ℚ) (meshes : List MeshQ)
    (materials : List MaterialQ) (planes : List PlaneQ) (idx : ℕ)
    (inst : InstanceQ) :
    cullTestInstance sqrtFn meshes materials (planes.take 5) idx inst =
      cullTestInstance sqrtFn meshes materials planes idx inst := by
  simp only [cullTestInstance, sphereVisible_take_five]

theorem rebuildGo_take_five (sqrtFn : ℚ → ℚ) (meshes : List MeshQ)
    (materials : List MaterialQ) (planes : List PlaneQ) (maxT : ℕ) :
    ∀ (l : List InstanceQ) (idx : ℕ) (acc : RebuildAcc),
      rebuildGo sqrtFn meshes materials (planes.take 5) maxT idx l acc =
        rebuildGo sqrtFn meshes materials planes maxT idx l acc := by
  intro l
  induction l with
  | nil => intro idx acc; rfl
  | cons inst rest ih =>
    intro idx acc
    rw [rebuildGo_cons, rebuildGo_cons, ih]
    congr 1
    simp only [rebuildStep, cullTestInstance_take_five]

theorem rebuildDrawCommands_take_five (sqrtFn : ℚ → ℚ) (meshes : List MeshQ)
    (materials : List MaterialQ) (instances : List InstanceQ)
    (planes : List PlaneQ) :
    rebuildDrawCommands sqrtFn meshes materials instances (planes.take 5) =
      rebuildDrawCommands sqrtFn meshes materials instances planes := by
  simp only [rebuildDrawCommands, rebuildGo_take_five]

/-!  ### Provenance of every generated command -/

theorem rebuildDrawCommands_partition (sqrtFn : ℚ → ℚ) (meshes : List MeshQ)
    (materials : List MaterialQ) (instances : List InstanceQ)
    (planes : List PlaneQ) :
    (∀ c ∈ (rebuildDrawCommands sqrtFn meshes materials instances
        planes).opaqueCmds,
      ∃ inst am, instances.get? c.firstInstance = some inst ∧
        instanceAlphaMode meshes materials inst = some am ∧ ¬am = 1) ∧
    (∀ c ∈ (rebuildDrawCommands sqrtFn meshes materials instances
        planes).transparentCmds,
      ∃ inst, instances.get? c.firstInstance = some inst ∧
        instanceAlphaMode meshes materials inst = some 1) := by
  constructor
  · intro c hc
    rcases rebuildGo_opaque_mem sqrtFn meshes materials planes
        (min instances.length 500) instances 0 ⟨[], []⟩ c hc with h | ⟨j, inst, am, hj, hcull, ham⟩
    · simp at h
    · have hfi : c.firstInstance = 0 + j := cullTestInstance_firstInstance hcull
      refine ⟨inst, am, ?_, cullTestInstance_alphaMode hcull, ham⟩
      rw [hfi, Nat.zero_add]
      exact hj
  · intro c hc
    rcases rebuildGo_transparent_mem sqrtFn meshes materials planes
        (min instances.length 500) instances 0 ⟨[], []⟩ c hc with h | ⟨j, inst, hj, hcull⟩
    · simp at h
    · have hfi : c.firstInstance = 0 + j := cullTestInstance_firstInstance hcull
      refine ⟨inst, ?_, cullTestInstance_alphaMode hcull⟩
      rw [hfi, Nat.zero_add]
      exact hj

/-!  ### The steady-state camera check -/

theorem vec4DiffGt_self (t : ℚ) (ht : 0 ≤ t) (a : Vec4Q) :
    vec4DiffGt t a a = false := by
  simp [vec4DiffGt, sub_self, abs_zero, not_lt.mpr ht]

theorem mat4DiffGt_self (t : ℚ) (ht : 0 ≤ t) (a : Mat4Q) :
    mat4DiffGt t a a = false := by
  simp [mat4DiffGt, vec4DiffGt_self t ht]

/-!  ### Claims -/

/-- C1, counterexample.  The claim says the near and far planes are both
excluded from the per-instance culling test.  Concretely, for the
identity view-projection frustum and an instance whose radius-0 world
bounding sphere sits at `(0,0,-2)`: the sphere violates only plane
index 4 — the plane `Frustum::fromViewProjection` labels "Near" — yet
the rebuild emits no command for it, and replacing only that near plane
(all other planes unchanged) changes the rebuild output.  So the near
plane is part of the tested set, contradicting the claim. -/
theorem claim1_counterexample :
    wPlanesRelaxedNear.take 4 = wFrustumId.planes.take 4 ∧
    wPlanesRelaxedNear.getD 5 defaultPlaneQ =
      wFrustumId.planes.getD 5 defaultPlaneQ ∧
    wPlanesRelaxedNear.length = 6 ∧ wFrustumId.planes.length = 6 ∧
    (wFrustumId.planes.map fun p => decide (planeDist p
        (worldBoundingSphere ratSqrt wMeshNear wInstOrigin).1 <
        -(worldBoundingSphere ratSqrt wMeshNear wInstOrigin).2)) =
      [false, false, false, false, true, false] ∧
    rebuildBuffer (rebuildDrawCommands ratSqrt [wMeshNear] [wMatOpaqueQ]
      [wInstOrigin] wFrustumId.planes) = [] ∧
    (rebuildDrawCommands ratSqrt [wMeshNear] [wMatOpaqueQ] [wInstOrigin]
        wPlanesRelaxedNear).opaqueCmds.length = 1 := by
  decide

/-- C1, amended: each instance's world bounding sphere is tested against
exactly the first five of the six frustum planes — left, right, bottom,
top and **near** (indices 0–4) — and only the **far** plane (index 5)
is excluded: the rebuild output is invariant under truncating the plane
list to its first five entries, and the visibility test is exactly the
conjunction of the five `dist ≥ -radius` checks on planes 0–4. -/
theorem claim1_only_far_plane_excluded :
    (∀ (sqrtFn : ℚ → ℚ) (meshes : List MeshQ) (materials : List MaterialQ)
      (instances : List InstanceQ) (planes : List PlaneQ),
      rebuildDrawCommands sqrtFn meshes materials instances planes =
        rebuildDrawCommands sqrtFn meshes materials instances (planes.take 5)) ∧
    (∀ (planes : List PlaneQ) (center : Vec3Q) (radius : ℚ),
      sphereVisible planes center radius = true ↔
        ∀ i, i < 5 →
          ¬(planeDist (planes.getD i defaultPlaneQ) center < -radius)) := by
  constructor
  · intro sqrtFn meshes materials instances planes
    rw [rebuildDrawCommands_take_five]
  · exact sphereVisible_iff

/-- C1, witness for the amended theorem at the identity frustum. -/
theorem claim1_witness :
    rebuildDrawCommands ratSqrt [wMeshNear] [wMatOpaqueQ] [wInstOrigin]
        wFrustumId.planes =
      rebuildDrawCommands ratSqrt [wMeshNear] [wMatOpaqueQ] [wInstOrigin]
        (wFrustumId.planes.take 5) ∧
    (sphereVisible wFrustumId.planes ⟨0, 0, 0⟩ 0 = true ↔
      ∀ i, i < 5 →
        ¬(planeDist (wFrustumId.planes.getD i defaultPlaneQ) ⟨0, 0, 0⟩ <
          -(0 : ℚ))) :=
  ⟨claim1_only_far_plane_excluded.1 ratSqrt [wMeshNear] [wMatOpaqueQ]
      [wInstOrigin] wFrustumId.planes,
    claim1_only_far_plane_excluded.2 wFrustumId.planes ⟨0, 0, 0⟩ 0⟩

/-- C2.  The claim says the time value handed to `updateSceneResources`
is computed after the fence wait.  In `RayQueryPipeline::drawFrame` the
clock is sampled exactly once, at function entry (`currentTime`),
*before* `waitForFences`; both `time` (the value actually passed to
`updateSceneResources`) and the post-wait `renderTime` are derived from
that pre-wait sample.  This theorem evaluates the recorded statement
order: the only clock sample precedes the fence wait, and the
`updateSceneResources` call consumes that sample. -/
theorem claim2_time_sample_before_fence_wait :
    eventPos (FrameEvent.sampleClock 0) < eventPos FrameEvent.waitFence ∧
    drawFrameEvents.filter isClockSample = [FrameEvent.sampleClock 0] ∧
    drawFrameEvents.filter isUpdateSceneResources =
      [FrameEvent.updateSceneResources 0] := by
  decide

theorem rebuildDrawCommands_def (sqrtFn : ℚ → ℚ) (meshes : List MeshQ)
    (materials : List MaterialQ) (instances : List InstanceQ)
    (planes : List PlaneQ) :
    rebuildDrawCommands sqrtFn meshes materials instances planes =
      rebuildGo sqrtFn meshes materials planes (min instances.length 500) 0
        instances ⟨[], []⟩ := rfl

/-- C3.  After any call of `updateIndirectDrawBuffers` for a slot,
either the call wrote nothing (returning the state unchanged), or the
slot's freshly written buffer is partitioned: every command at a
position below `opaqueDrawCount` references an instance whose material
alpha mode is not BLEND (≠ 1), and every command at or above
`opaqueDrawCount` references an instance whose material alpha mode is
BLEND (= 1). -/
theorem claim3_partition_invariant (sqrtFn : ℚ → ℚ) (scene : SceneQ)
    (frameIdx : Fin maxFramesInFlight) (s s2 : IndirectDrawState)
    (hs2 : s2 = updateIndirectDrawBuffers sqrtFn scene frameIdx s) :
    s2 = s ∨
    ((∀ p c, p < s2.opaqueDrawCount → (s2.buffers frameIdx).get? p = some c →
        ∃ inst am, scene.instances.get? c.firstInstance = some inst ∧
          instanceAlphaMode scene.meshes scene.materials inst = some am ∧
          ¬am = 1) ∧
     (∀ p c, s2.opaqueDrawCount ≤ p →
        (s2.buffers frameIdx).get? p = some c →
        ∃ inst, scene.instances.get? c.firstInstance = some inst ∧
          instanceAlphaMode scene.meshes scene.materials inst = some 1)) := by
  subst hs2
  simp only [updateIndirectDrawBuffers]
  split
  · exact Or.inl rfl
  · split
    · refine Or.inr ⟨?_, ?_⟩
      · intro p c hp hget
        simp only [Function.update_same] at hget hp ⊢
        rw [rebuildBuffer, List.get?_append hp] at hget
        exact (rebuildDrawCommands_partition sqrtFn scene.meshes scene.materials
          scene.instances (sceneFrustum sqrtFn scene).planes).1 c
          (List.get?_mem hget)
      · intro p c hp hget
        simp only [Function.update_same] at hget hp ⊢
        rw [rebuildBuffer, List.get?_append_right hp] at hget
        exact (rebuildDrawCommands_partition sqrtFn scene.meshes scene.materials
          scene.instances (sceneFrustum sqrtFn scene).planes).2 c
          (List.get?_mem hget)
    · split
      · refine Or.inr ⟨?_, ?_⟩
        · intro p c hp hget
          simp only [Function.update_same] at hget hp ⊢
          rw [rebuildBuffer, List.get?_append hp] at hget
          exact (rebuildDrawCommands_partition sqrtFn scene.meshes
            scene.materials scene.instances
            (sceneFrustum sqrtFn scene).planes).1 c (List.get?_mem hget)
        · intro p c hp hget
          simp only [Function.update_same] at hget hp ⊢
          rw [rebuildBuffer, List.get?_append_right hp] at hget
          exact (rebuildDrawCommands_partition sqrtFn scene.meshes
            scene.materials scene.instances
            (sceneFrustum sqrtFn scene).planes).2 c (List.get?_mem hget)
      · exact Or.inl rfl

/-- C3, witness: the single-instance opaque scene refreshed into a fresh
slot. -/
theorem claim3_witness :
    updateIndirectDrawBuffers ratSqrt wSceneOne wSlot0 wStateFresh = wStateFresh ∨
    ((∀ p c, p < (updateIndirectDrawBuffers ratSqrt wSceneOne wSlot0
          wStateFresh).opaqueDrawCount →
        ((updateIndirectDrawBuffers ratSqrt wSceneOne wSlot0
          wStateFresh).buffers wSlot0).get? p = some c →
        ∃ inst am, wSceneOne.instances.get? c.firstInstance = some inst ∧
          instanceAlphaMode wSceneOne.meshes wSceneOne.materials inst = some am ∧
          ¬am = 1) ∧
     (∀ p c, (updateIndirectDrawBuffers ratSqrt wSceneOne wSlot0
          wStateFresh).opaqueDrawCount ≤ p →
        ((updateIndirectDrawBuffers ratSqrt wSceneOne wSlot0
          wStateFresh).buffers wSlot0).get? p = some c →
        ∃ inst, wSceneOne.instances.get? c.firstInstance = some inst ∧
          instanceAlphaMode wSceneOne.meshes wSceneOne.materials inst =
            some 1)) :=
  claim3_partition_invariant ratSqrt wSceneOne wSlot0 wStateFresh _ rfl

theorem rebuildGo_append (sqrtFn : ℚ → ℚ) (meshes : List MeshQ)
    (materials : List MaterialQ) (planes : List PlaneQ) (maxT : ℕ) :
    ∀ (l1 l2 : List InstanceQ) (idx : ℕ) (acc : RebuildAcc),
      rebuildGo sqrtFn meshes materials planes maxT idx (l1 ++ l2) acc =
        rebuildGo sqrtFn meshes materials planes maxT (idx + l1.length) l2
          (rebuildGo sqrtFn meshes materials planes maxT idx l1 acc) := by
  intro l1
  induction l1 with
  | nil =>
    intro l2 idx acc
    simp [rebuildGo]
  | cons inst rest ih =>
    intro l2 idx acc
    have hidx : idx + 1 + rest.length = idx + (inst :: rest).length := by
      simp [List.length_cons]
      omega
    rw [List.cons_append, rebuildGo_cons, ih, hidx, rebuildGo_cons]

theorem replicate_instance_get (a : InstanceQ) (n k : ℕ) (hk : k < n) :
    (List.replicate n a).get? k = some a := by
  rw [List.get?_eq_getElem?]
  exact List.getElem?_replicate_of_lt hk

/-- The culling result for the permissive-plane BLEND scenario: every
instance index produces the same transparent command. -/
theorem wCullPermissive (idx : ℕ) :
    cullTestInstance ratSqrt [wMeshOrigin] [wMatBlend] wPlanesPermissive idx
      wInstOrigin = some (1, ⟨3, 1, 0, 0, idx⟩) := by
  rw [cullTestInstance_some_of_visible (by decide) (by decide) (by decide)]
  rfl

theorem wTransparentGrowth :
    ∀ (n idx : ℕ) (acc : RebuildAcc), acc.transparentCmds.length + n ≤ 500 →
      (rebuildGo ratSqrt [wMeshOrigin] [wMatBlend] wPlanesPermissive 500 idx
        (List.replicate n wInstOrigin) acc).transparentCmds.length =
        acc.transparentCmds.length + n := by
  intro n
  induction n with
  | zero =>
    intro idx acc h
    simp [rebuildGo]
  | succ n ih =>
    intro idx acc h
    rw [List.replicate_succ, rebuildGo_cons]
    have hroom : acc.transparentCmds.length < 500 := by omega
    have hstep : rebuildStep ratSqrt [wMeshOrigin] [wMatBlend] wPlanesPermissive
        500 acc idx wInstOrigin =
        ⟨acc.opaqueCmds, acc.transparentCmds ++ [⟨3, 1, 0, 0, idx⟩]⟩ := by
      simp [rebuildStep, wCullPermissive, hroom]
    rw [hstep, ih (idx + 1) _ (by simp; omega)]
    simp
    omega

/-- In the 501-instance scenario the final accumulator equals the one
after the first 500 instances: the 501st is dropped by the cap. -/
theorem wFinalEq :
    rebuildDrawCommands ratSqrt [wMeshOrigin] [wMatBlend]
        (List.replicate 501 wInstOrigin) wPlanesPermissive =
      rebuildGo ratSqrt [wMeshOrigin] [wMatBlend] wPlanesPermissive 500 0
        (List.replicate 500 wInstOrigin) ⟨[], []⟩ := by
  have hmaxT : min (List.replicate 501 wInstOrigin).length 500 = 500 := by
    simp
  have hlen : (rebuildGo ratSqrt [wMeshOrigin] [wMatBlend] wPlanesPermissive 500
      0 (List.replicate 500 wInstOrigin) ⟨[], []⟩).transparentCmds.length =
      500 := by
    have := wTransparentGrowth 500 0 ⟨[], []⟩ (by simp)
    simpa using this
  rw [rebuildDrawCommands_def, hmaxT,
    show List.replicate 501 wInstOrigin =
      List.replicate 500 wInstOrigin ++ List.replicate 1 wInstOrigin from by
        rw [← List.replicate_add],
    rebuildGo_append]
  have hsingle : ∀ (idx : ℕ) (acc : RebuildAcc),
      rebuildGo ratSqrt [wMeshOrigin] [wMatBlend] wPlanesPermissive 500 idx
        (List.replicate 1 wInstOrigin) acc =
        rebuildStep ratSqrt [wMeshOrigin] [wMatBlend] wPlanesPermissive 500 acc
          idx wInstOrigin := fun idx acc => rfl
  rw [hsingle]
  have hnopush : ∀ (idx : ℕ) (acc : RebuildAcc),
      ¬acc.transparentCmds.length < 500 →
      rebuildStep ratSqrt [wMeshOrigin] [wMatBlend] wPlanesPermissive 500 acc
        idx wInstOrigin = acc := by
    intro idx acc hfull
    simp [rebuildStep, wCullPermissive, hfull]
  exact hnopush _ _ (by rw [hlen]; omega)

/-- C4, counterexample.  The claim says an instance with in-range
indices whose sphere is inside all tested planes always contributes
exactly one draw command.  In a scene of 501 identical visible BLEND
instances the transparent side buffer is capped at
`min(instanceCount, 500) = 500`, so instance 500 — in range, material
resolvable, sphere passing all five tested planes — contributes no
command at all. -/
theorem claim4_counterexample :
    (List.replicate 501 wInstOrigin).get? 500 = some wInstOrigin ∧
    instanceAlphaMode [wMeshOrigin] [wMatBlend] wInstOrigin = some 1 ∧
    sphereVisible wPlanesPermissive
      (worldBoundingSphere ratSqrt (resolvedMesh [wMeshOrigin] wInstOrigin)
        wInstOrigin).1
      (worldBoundingSphere ratSqrt (resolvedMesh [wMeshOrigin] wInstOrigin)
        wInstOrigin).2 = true ∧
    (rebuildDrawCommands ratSqrt [wMeshOrigin] [wMatBlend]
      (List.replicate 501 wInstOrigin) wPlanesPermissive).transparentCmds.length
      = 500 ∧
    cmdCount 500 (rebuildBuffer (rebuildDrawCommands ratSqrt [wMeshOrigin]
      [wMatBlend] (List.replicate 501 wInstOrigin) wPlanesPermissive)) = 0 := by
  refine ⟨replicate_instance_get wInstOrigin 501 500 (by omega), by decide,
    by decide, ?_, ?_⟩
  · rw [wFinalEq]
    simpa using wTransparentGrowth 500 0 ⟨[], []⟩ (by simp)
  · rw [wFinalEq, cmdCount, List.countP_eq_zero]
    intro c hc
    simp only [beq_iff_eq]
    intro hfi
    rw [rebuildBuffer, List.mem_append] at hc
    have hbound : c.firstInstance < 500 := by
      rcases hc with hc | hc
      · rcases rebuildGo_opaque_mem ratSqrt [wMeshOrigin] [wMatBlend]
            wPlanesPermissive 500 (List.replicate 500 wInstOrigin) 0 ⟨[], []⟩ c hc
          with h | ⟨j, inst', am, hj, hcull, -⟩
        · simp at h
        · have hfi2 : c.firstInstance = 0 + j :=
            cullTestInstance_firstInstance hcull
          have hjlt : j < 500 := by
            by_contra hge
            have hnone : (List.replicate 500 wInstOrigin).get? j = none :=
              List.get?_eq_none.mpr (by simpa using Nat.le_of_not_lt hge)
            rw [hnone] at hj
            exact absurd hj (by simp)
          omega
      · rcases rebuildGo_transparent_mem ratSqrt [wMeshOrigin] [wMatBlend]
            wPlanesPermissive 500 (List.replicate 500 wInstOrigin) 0 ⟨[], []⟩ c hc
          with h | ⟨j, inst', hj, hcull⟩
        · simp at h
        · have hfi2 : c.firstInstance = 0 + j :=
            cullTestInstance_firstInstance hcull
          have hjlt : j < 500 := by
            by_contra hge
            have hnone : (List.replicate 500 wInstOrigin).get? j = none :=
              List.get?_eq_none.mpr (by simpa using Nat.le_of_not_lt hge)
            rw [hnone] at hj
            exact absurd hj (by simp)
          omega
    omega

theorem rebuildGo_split (sqrtFn : ℚ → ℚ) (meshes : List MeshQ)
    (materials : List MaterialQ) (planes : List PlaneQ) (maxT : ℕ)
    (instances : List InstanceQ) (k : ℕ) (inst : InstanceQ)
    (hk : instances.get? k = some inst) :
    rebuildGo sqrtFn meshes materials planes maxT 0 instances ⟨[], []⟩ =
      rebuildGo sqrtFn meshes materials planes maxT (k + 1)
        (instances.drop (k + 1))
        (rebuildStep sqrtFn meshes materials planes maxT
          (rebuildGo sqrtFn meshes materials planes maxT 0 (instances.take k)
            ⟨[], []⟩) k inst) := by
  have hk2 : instances[k]? = some inst := by
    rw [← List.get?_eq_getElem?]
    exact hk
  obtain ⟨hklt, helem⟩ := List.getElem?_eq_some_iff.mp hk2
  have hsplit : instances = instances.take k ++ instances.drop k :=
    (List.take_append_drop k instances).symm
  have hlen : (instances.take k).length = k := by
    rw [List.length_take]
    omega
  have hdrop : instances.drop k = inst :: instances.drop (k + 1) := by
    rw [List.drop_eq_getElem_cons hklt, helem]
  conv_lhs => rw [hsplit]
  rw [rebuildGo_append, hlen, Nat.zero_add, hdrop, rebuildGo_cons]

theorem rebuildGo_transparent_mem_mono (sqrtFn : ℚ → ℚ) (meshes : List MeshQ)
    (materials : List MaterialQ) (planes : List PlaneQ) (maxT : ℕ)
    (l : List InstanceQ) (idx : ℕ) (acc : RebuildAcc) (c : DrawCmdQ)
    (hc : c ∈ acc.transparentCmds) :
    c ∈ (rebuildGo sqrtFn meshes materials planes maxT idx l
      acc).transparentCmds := by
  obtain ⟨t, ht⟩ := rebuildGo_transparent_extends sqrtFn meshes materials
    planes maxT l idx acc
  rw [ht]
  exact List.mem_append_left _ hc

theorem cmdCount_zero_of_short (sqrtFn : ℚ → ℚ) (meshes : List MeshQ)
    (materials : List MaterialQ) (planes : List PlaneQ) (maxT : ℕ)
    (l : List InstanceQ) (k : ℕ) (hlen : l.length ≤ k) :
    cmdCount k (rebuildBuffer
      (rebuildGo sqrtFn meshes materials planes maxT 0 l ⟨[], []⟩)) = 0 := by
  rw [cmdCount, List.countP_eq_zero]
  intro c hc
  simp only [beq_iff_eq]
  intro hfi
  rw [rebuildBuffer, List.mem_append] at hc
  have hlt : c.firstInstance < l.length := by
    rcases hc with hc | hc
    · rcases rebuildGo_opaque_mem sqrtFn meshes materials planes maxT l 0
          ⟨[], []⟩ c hc with h | ⟨j, inst', am, hj, hcull, -⟩
      · simp at h
      · have hfi2 : c.firstInstance = 0 + j :=
          cullTestInstance_firstInstance hcull
        have hjlt : j < l.length := by
          by_contra hge
          have hnone : l.get? j = none :=
            List.get?_eq_none.mpr (Nat.le_of_not_lt hge)
          rw [hnone] at hj
          exact absurd hj (by simp)
        omega
    · rcases rebuildGo_transparent_mem sqrtFn meshes materials planes maxT l 0
          ⟨[], []⟩ c hc with h | ⟨j, inst', hj, hcull⟩
      · simp at h
      · have hfi2 : c.firstInstance = 0 + j :=
          cullTestInstance_firstInstance hcull
        have hjlt : j < l.length := by
          by_contra hge
          have hnone : l.get? j = none :=
            List.get?_eq_none.mpr (Nat.le_of_not_lt hge)
          rw [hnone] at hj
          exact absurd hj (by simp)
        omega
  omega

/-- C4, amended: in any rebuild pass, an instance whose world bounding
sphere has signed distance below `-radius` to one of the five tested
planes contributes no draw command; an instance with in-range mesh and
material indices whose sphere is inside (not outside) all five tested
planes contributes exactly one draw command — unless its material is
BLEND and the transparent side buffer had already reached the
`min(instanceCount, 500)` cap when that instance was processed, in
which case it contributes none. -/
theorem claim4_frustum_culling (sqrtFn : ℚ → ℚ) (meshes : List MeshQ)
    (materials : List MaterialQ) (instances : List InstanceQ)
    (planes : List PlaneQ) (k : ℕ) (inst : InstanceQ)
    (hk : instances.get? k = some inst) :
    ((∃ i, i < 5 ∧ planeDist (planes.getD i defaultPlaneQ)
        (worldBoundingSphere sqrtFn (resolvedMesh meshes inst) inst).1 <
        -(worldBoundingSphere sqrtFn (resolvedMesh meshes inst) inst).2) →
      cmdCount k (rebuildBuffer
        (rebuildDrawCommands sqrtFn meshes materials instances planes)) = 0) ∧
    (¬(inst.meshIndex < 0 ∨ (meshes.length : ℤ) ≤ inst.meshIndex) →
     ¬((resolvedMesh meshes inst).materialIndex < 0 ∨
        (materials.length : ℤ) ≤ (resolvedMesh meshes inst).materialIndex) →
     (∀ i, i < 5 → ¬(planeDist (planes.getD i defaultPlaneQ)
        (worldBoundingSphere sqrtFn (resolvedMesh meshes inst) inst).1 <
        -(worldBoundingSphere sqrtFn (resolvedMesh meshes inst) inst).2)) →
     ((materials.getD (resolvedMesh meshes inst).materialIndex.toNat
         defaultMaterialQ).alphaMode ≠ 1 →
      cmdCount k (rebuildBuffer
        (rebuildDrawCommands sqrtFn meshes materials instances planes)) = 1) ∧
     ((materials.getD (resolvedMesh meshes inst).materialIndex.toNat
         defaultMaterialQ).alphaMode = 1 →
      transparentCountBefore sqrtFn meshes materials instances planes k <
        min instances.length 500 →
      cmdCount k (rebuildBuffer
        (rebuildDrawCommands sqrtFn meshes materials instances planes)) = 1) ∧
     ((materials.getD (resolvedMesh meshes inst).materialIndex.toNat
         defaultMaterialQ).alphaMode = 1 →
      ¬(transparentCountBefore sqrtFn meshes materials instances planes k <
        min instances.length 500) →
      cmdCount k (rebuildBuffer
        (rebuildDrawCommands sqrtFn meshes materials instances planes)) = 0)) := by
  constructor
  · intro hculled
    have hnone : cullTestInstance sqrtFn meshes materials planes k inst = none :=
      cullTestInstance_none_of_culled hculled
    rw [cmdCount, List.countP_eq_zero]
    intro c hcbuf
    simp only [beq_iff_eq]
    intro hfi
    rw [rebuildBuffer, List.mem_append] at hcbuf
    rcases hcbuf with hc | hc
    · rcases (rebuildGo_opaque_mem sqrtFn meshes materials planes
          (min instances.length 500) instances 0 ⟨[], []⟩ c
          (by rw [← rebuildDrawCommands_def]; exact hc)) with h | ⟨j, inst', am, hj, hcull, -⟩
      · simp at h
      · have hfi2 : c.firstInstance = 0 + j := cullTestInstance_firstInstance hcull
        rw [Nat.zero_add] at hfi2 hcull
        have hkj : k = j := by rw [← hfi, hfi2]
        subst hkj
        rw [hk] at hj
        injection hj with hj
        subst hj
        rw [hnone] at hcull
        exact absurd hcull (by simp)
    · rcases (rebuildGo_transparent_mem sqrtFn meshes materials planes
          (min instances.length 500) instances 0 ⟨[], []⟩ c
          (by rw [← rebuildDrawCommands_def]; exact hc)) with h | ⟨j, inst', hj, hcull⟩
      · simp at h
      · have hfi2 : c.firstInstance = 0 + j := cullTestInstance_firstInstance hcull
        rw [Nat.zero_add] at hfi2 hcull
        have hkj : k = j := by rw [← hfi, hfi2]
        subst hkj
        rw [hk] at hj
        injection hj with hj
        subst hj
        rw [hnone] at hcull
        exact absurd hcull (by simp)
  · intro hm hmat hin
    have hvis : sphereVisible planes
        (worldBoundingSphere sqrtFn (resolvedMesh meshes inst) inst).1
        (worldBoundingSphere sqrtFn (resolvedMesh meshes inst) inst).2 = true :=
      (sphereVisible_iff _ _ _).mpr hin
    have hsome := @cullTestInstance_some_of_visible sqrtFn meshes materials
      planes k inst hm hmat hvis
    have hle := rebuildGo_cmdCount_le_one sqrtFn meshes materials planes
      (min instances.length 500) instances 0 ⟨[], []⟩ k
    have hzero : cmdCount k (rebuildBuffer (⟨[], []⟩ : RebuildAcc)) = 0 := rfl
    rw [hzero, Nat.zero_add] at hle
    rw [← rebuildDrawCommands_def] at hle
    refine ⟨?_, ?_, ?_⟩
    · intro ha
      have hmem := rebuildGo_opaque_included sqrtFn meshes materials planes
        (min instances.length 500) instances 0 ⟨[], []⟩ k inst _ _
        (by simpa using hk) (by rw [Nat.zero_add]; exact hsome) ha
      rw [← rebuildDrawCommands_def] at hmem
      have hge : 1 ≤ cmdCount k (rebuildBuffer
          (rebuildDrawCommands sqrtFn meshes materials instances planes)) := by
        rw [cmdCount]
        apply List.countP_pos.mpr
        exact ⟨_, by rw [rebuildBuffer]; exact List.mem_append_left _ hmem,
          by simp⟩
      omega
    · intro ha hroom
      rw [ha] at hsome
      have hroom2 : (rebuildGo sqrtFn meshes materials planes
          (min instances.length 500) 0 (instances.take k)
          ⟨[], []⟩).transparentCmds.length < min instances.length 500 := hroom
      have hstep : rebuildStep sqrtFn meshes materials planes
          (min instances.length 500)
          (rebuildGo sqrtFn meshes materials planes (min instances.length 500)
            0 (instances.take k) ⟨[], []⟩) k inst =
          ⟨(rebuildGo sqrtFn meshes materials planes (min instances.length 500)
              0 (instances.take k) ⟨[], []⟩).opaqueCmds,
            (rebuildGo sqrtFn meshes materials planes (min instances.length 500)
              0 (instances.take k) ⟨[], []⟩).transparentCmds ++
              [{ indexCount := (resolvedMesh meshes inst).indexCount,
                 instanceCount := 1,
                 firstIndex := (resolvedMesh meshes inst).baseIndex,
                 vertexOffset := ((resolvedMesh meshes inst).baseVertex : ℤ),
                 firstInstance := k }]⟩ := by
        simp [rebuildStep, hsome, hroom2]
      have hge : 1 ≤ cmdCount k (rebuildBuffer
          (rebuildDrawCommands sqrtFn meshes materials instances planes)) := by
        rw [rebuildDrawCommands_def,
          rebuildGo_split sqrtFn meshes materials planes
            (min instances.length 500) instances k inst hk, hstep, cmdCount]
        apply List.countP_pos.mpr
        refine ⟨{ indexCount := (resolvedMesh meshes inst).indexCount,
                  instanceCount := 1,
                  firstIndex := (resolvedMesh meshes inst).baseIndex,
                  vertexOffset := ((resolvedMesh meshes inst).baseVertex : ℤ),
                  firstInstance := k }, ?_, by simp⟩
        rw [rebuildBuffer]
        apply List.mem_append_right
        apply rebuildGo_transparent_mem_mono
        simp
      omega
    · intro ha hfull
      rw [ha] at hsome
      have hfull2 : ¬(rebuildGo sqrtFn meshes materials planes
          (min instances.length 500) 0 (instances.take k)
          ⟨[], []⟩).transparentCmds.length < min instances.length 500 := hfull
      have hstep : rebuildStep sqrtFn meshes materials planes
          (min instances.length 500)
          (rebuildGo sqrtFn meshes materials planes (min instances.length 500)
            0 (instances.take k) ⟨[], []⟩) k inst =
          rebuildGo sqrtFn meshes materials planes (min instances.length 500)
            0 (instances.take k) ⟨[], []⟩ := by
        simp [rebuildStep, hsome, hfull2]
      rw [rebuildDrawCommands_def,
        rebuildGo_split sqrtFn meshes materials planes
          (min instances.length 500) instances k inst hk, hstep,
        rebuildGo_cmdCount_high sqrtFn meshes materials planes
          (min instances.length 500) (instances.drop (k + 1)) (k + 1) _ k
          (by omega)]
      exact cmdCount_zero_of_short sqrtFn meshes materials planes
        (min instances.length 500) (instances.take k) k
        (by rw [List.length_take]; omega)

/-- C4, witness for the amended theorem, exercising all four branches:
an instance culled by the near plane contributes no command; a visible
opaque instance contributes exactly one; a visible BLEND instance with
the side buffer below the cap when it is processed contributes exactly
one; the 501st visible BLEND instance, processed after the side buffer
already holds the 500-command cap, contributes none. -/
theorem claim4_witness :
    cmdCount 0 (rebuildBuffer (rebuildDrawCommands ratSqrt [wMeshNear]
      [wMatOpaqueQ] [wInstOrigin] wFrustumId.planes)) = 0 ∧
    cmdCount 0 (rebuildBuffer (rebuildDrawCommands ratSqrt [wMeshOrigin]
      [wMatOpaqueQ] [wInstOrigin] wFrustumId.planes)) = 1 ∧
    cmdCount 0 (rebuildBuffer (rebuildDrawCommands ratSqrt [wMeshOrigin]
      [wMatBlend] [wInstOrigin] wPlanesPermissive)) = 1 ∧
    cmdCount 500 (rebuildBuffer (rebuildDrawCommands ratSqrt [wMeshOrigin]
      [wMatBlend] (List.replicate 501 wInstOrigin) wPlanesPermissive)) = 0 :=
  ⟨(claim4_frustum_culling ratSqrt [wMeshNear] [wMatOpaqueQ] [wInstOrigin]
      wFrustumId.planes 0 wInstOrigin (by decide)).1 (by decide),
   ((claim4_frustum_culling ratSqrt [wMeshOrigin] [wMatOpaqueQ] [wInstOrigin]
      wFrustumId.planes 0 wInstOrigin (by decide)).2 (by decide) (by decide)
      (by decide)).1 (by decide),
   ((claim4_frustum_culling ratSqrt [wMeshOrigin] [wMatBlend] [wInstOrigin]
      wPlanesPermissive 0 wInstOrigin (by decide)).2 (by decide) (by decide)
      (by decide)).2.1 (by decide) (by decide),
   ((claim4_frustum_culling ratSqrt [wMeshOrigin] [wMatBlend]
      (List.replicate 501 wInstOrigin) wPlanesPermissive 500 wInstOrigin
      (replicate_instance_get wInstOrigin 501 500 (by omega))).2 (by decide)
      (by decide) (by decide)).2.2 (by decide)
      (by
        have hcb : transparentCountBefore ratSqrt [wMeshOrigin] [wMatBlend]
            (List.replicate 501 wInstOrigin) wPlanesPermissive 500 = 500 := by
          rw [transparentCountBefore,
            show (List.replicate 501 wInstOrigin).take 500 =
              List.replicate 500 wInstOrigin from by
                rw [List.take_replicate]
                norm_num,
            show min (List.replicate 501 wInstOrigin).length 500 = 500 from by
              simp]
          simpa using wTransparentGrowth 500 0 ⟨[], []⟩ (by simp)
        rw [hcb]
        simp)⟩

/-- C5.  With zero animated instances and `initialBuild = false`,
`recordTLASUpdate` writes nothing into the slot's mapped instance
buffer and records no command (no barrier, no build/update) into the
command buffer. -/
theorem claim5_tlas_early_exit (instances : List InstanceQ)
    (h : ∀ inst ∈ instances, inst.animated = 0) :
    recordTLASUpdate instances false = ([], []) := by
  have hwrites : tlasInstanceWrites instances false = [] := by
    rw [tlasInstanceWrites]
    apply List.filterMap_eq_nil.mpr
    intro i hi
    rw [List.mem_range] at hi
    have hmem : instances.getD i {} ∈ instances := by
      rw [List.getD_eq_getElem?_getD, List.getElem?_eq_getElem hi]
      exact List.getElem_mem hi
    have ha : (instances.getD i {}).animated = 0 := h _ hmem
    simp only [List.getD_eq_getElem?_getD] at ha
    simp [ha]
  simp only [recordTLASUpdate, hwrites]
  rfl

/-- C5, witness: a one-instance static scene. -/
theorem claim5_witness :
    (∀ inst ∈ [wInstOrigin], inst.animated = 0) ∧
    recordTLASUpdate [wInstOrigin] false = ([], []) :=
  ⟨by decide, claim5_tlas_early_exit [wInstOrigin] (by decide)⟩

/-- C6.  For an already-initialized slot, a bit-identical cached camera
view-projection and no animated instance, `updateIndirectDrawBuffers`
leaves the whole state — the slot's mapped buffer and both draw
counts — unchanged. -/
theorem claim6_noop_refresh (sqrtFn : ℚ → ℚ) (scene : SceneQ)
    (frameIdx : Fin maxFramesInFlight) (s : IndirectDrawState)
    (hInit : s.bufferInitialized frameIdx = true)
    (hCam : scene.cameraViewProj = s.cachedCameraViewProj frameIdx)
    (hAnim : ∀ inst ∈ scene.instances, inst.animated = 0) :
    updateIndirectDrawBuffers sqrtFn scene frameIdx s = s := by
  have hcc : cameraChangedCheck s frameIdx scene.cameraViewProj = false := by
    rw [cameraChangedCheck, hInit, hCam,
      mat4DiffGt_self cameraChangeThreshold
        (by norm_num [cameraChangeThreshold]) _]
    rfl
  have hAny : scene.instances.any (fun inst => inst.animated != 0) = false := by
    rw [List.any_eq_false]
    intro x hx
    simp [hAnim x hx]
  simp only [updateIndirectDrawBuffers]
  split
  · rfl
  · rw [hcc, hAny]
    simp

/-- C6, witness: steady state with the identity camera. -/
theorem claim6_witness :
    wStateSteady.bufferInitialized wSlot0 = true ∧
    wSceneOne.cameraViewProj = wStateSteady.cachedCameraViewProj wSlot0 ∧
    (∀ inst ∈ wSceneOne.instances, inst.animated = 0) ∧
    updateIndirectDrawBuffers ratSqrt wSceneOne wSlot0 wStateSteady =
      wStateSteady :=
  ⟨rfl, rfl, by decide,
    claim6_noop_refresh ratSqrt wSceneOne wSlot0 wStateSteady rfl rfl (by decide)⟩

/-- C7.  An instance whose mesh index is out of range, or whose
resolved mesh's material index is out of range, is skipped silently:
its culling test returns nothing, the rebuild loop simply moves on to
the remaining instances with the accumulator untouched, and (the
embedding being total) no error is signalled. -/
theorem claim7_out_of_range_skipped (sqrtFn : ℚ → ℚ) (meshes : List MeshQ)
    (materials : List MaterialQ) (planes : List PlaneQ) (maxT idx : ℕ)
    (inst : InstanceQ) (rest : List InstanceQ) (acc : RebuildAcc)
    (h : inst.meshIndex < 0 ∨ (meshes.length : ℤ) ≤ inst.meshIndex ∨
      (resolvedMesh meshes inst).materialIndex < 0 ∨
      (materials.length : ℤ) ≤ (resolvedMesh meshes inst).materialIndex) :
    cullTestInstance sqrtFn meshes materials planes idx inst = none ∧
    rebuildGo sqrtFn meshes materials planes maxT idx (inst :: rest) acc =
      rebuildGo sqrtFn meshes materials planes maxT (idx + 1) rest acc := by
  have hnone : cullTestInstance sqrtFn meshes materials planes idx inst =
      none := by
    simp only [cullTestInstance]
    by_cases h1 : inst.meshIndex < 0 ∨ (meshes.length : ℤ) ≤ inst.meshIndex
    · rw [if_pos h1]
    · rw [if_neg h1]
      have h2 : (resolvedMesh meshes inst).materialIndex < 0 ∨
          (materials.length : ℤ) ≤ (resolvedMesh meshes inst).materialIndex := by
        tauto
      rw [if_pos h2]
  refine ⟨hnone, ?_⟩
  rw [rebuildGo_cons]
  congr 1
  simp [rebuildStep, hnone]

/-- C7, witness: a default instance (`meshIndex = -1`) ahead of a valid
one. -/
theorem claim7_witness :
    cullTestInstance ratSqrt [wMeshOrigin] [wMatOpaqueQ] wFrustumId.planes 0
      {} = none ∧
    rebuildGo ratSqrt [wMeshOrigin] [wMatOpaqueQ] wFrustumId.planes 1 0
      ({} :: [wInstOrigin]) ⟨[], []⟩ =
      rebuildGo ratSqrt [wMeshOrigin] [wMatOpaqueQ] wFrustumId.planes 1 1
        [wInstOrigin] ⟨[], []⟩ :=
  claim7_out_of_range_skipped ratSqrt [wMeshOrigin] [wMatOpaqueQ]
    wFrustumId.planes 1 0 {} [wInstOrigin] ⟨[], []⟩ (Or.inl (by decide))

/-- C8.  `createBLAS` assigns each mesh's geometry the opaque flag
exactly when the mesh has a material (`materialIndex ≠ -1`) whose
`alphaMode` is opaque (0); a mesh with no material or a non-opaque
material keeps its flags unset. -/
theorem claim8_blas_opaque_flag (materials : List MaterialQ)
    (meshes : List MeshQ) (k : ℕ) (mesh : MeshQ)
    (hk : meshes.get? k = some mesh) (hneg : -1 ≤ mesh.materialIndex)
    (hrange : mesh.materialIndex ≠ -1 →
      mesh.materialIndex.toNat < materials.length) :
    (createBLASGeometryFlags materials meshes).get? k =
      some (blasGeometryFlagIsOpaque materials mesh) ∧
    (blasGeometryFlagIsOpaque materials mesh = true ↔
      mesh.materialIndex ≠ -1 ∧
        (materials.getD mesh.materialIndex.toNat defaultMaterialQ).alphaMode =
          0) := by
  constructor
  · rw [createBLASGeometryFlags, List.get?_map, hk]
    rfl
  · rw [blasGeometryFlagIsOpaque]
    split
    · rename_i h1
      rw [bne_iff_ne] at h1
      split
      · rename_i h2
        rw [beq_iff_eq] at h2
        exact ⟨fun _ => ⟨h1, h2⟩, fun _ => rfl⟩
      · rename_i h2
        simp only [beq_iff_eq] at h2
        constructor
        · intro hx
          exact absurd hx (by simp)
        · rintro ⟨-, h0⟩
          exact absurd h0 h2
    · rename_i h1
      simp only [bne_iff_ne, not_not] at h1
      constructor
      · intro hx
        exact absurd hx (by simp)
      · rintro ⟨hne, -⟩
        exact absurd h1 hne

/-- C8, witness: a mesh referencing the opaque material 0. -/
theorem claim8_witness :
    (createBLASGeometryFlags [wMatOpaqueQ] [wMeshOrigin]).get? 0 =
      some (blasGeometryFlagIsOpaque [wMatOpaqueQ] wMeshOrigin) ∧
    (blasGeometryFlagIsOpaque [wMatOpaqueQ] wMeshOrigin = true ↔
      wMeshOrigin.materialIndex ≠ -1 ∧
        ([wMatOpaqueQ].getD wMeshOrigin.materialIndex.toNat
          defaultMaterialQ).alphaMode = 0) :=
  claim8_blas_opaque_flag [wMatOpaqueQ] [wMeshOrigin] 0 wMeshOrigin rfl
    (by decide) (fun _ => by decide)

/-- C9.  Each rebuild emits at most one command per instance, so the
two counts sum to at most the instance count (and transparent commands
are further capped at `min(instanceCount, 500)`); consequently after
any `updateIndirectDrawBuffers` call that wrote the slot, the written
region is exactly `opaqueDrawCount + transparentDrawCount ≤ instance
count` commands — within the indirect buffer allocated with one
command's room per instance. -/
theorem claim9_counts_within_capacity :
    (∀ (sqrtFn : ℚ → ℚ) (meshes : List MeshQ) (materials : List MaterialQ)
      (instances : List InstanceQ) (planes : List PlaneQ),
      (rebuildDrawCommands sqrtFn meshes materials instances
          planes).opaqueCmds.length +
        (rebuildDrawCommands sqrtFn meshes materials instances
          planes).transparentCmds.length ≤ instances.length ∧
      (rebuildDrawCommands sqrtFn meshes materials instances
          planes).transparentCmds.length ≤ min instances.length 500) ∧
    (∀ (sqrtFn : ℚ → ℚ) (scene : SceneQ) (frameIdx : Fin maxFramesInFlight)
      (s : IndirectDrawState),
      updateIndirectDrawBuffers sqrtFn scene frameIdx s = s ∨
      (((updateIndirectDrawBuffers sqrtFn scene frameIdx s).buffers
          frameIdx).length =
        (updateIndirectDrawBuffers sqrtFn scene frameIdx s).opaqueDrawCount +
          (updateIndirectDrawBuffers sqrtFn scene frameIdx
            s).transparentDrawCount ∧
       (updateIndirectDrawBuffers sqrtFn scene frameIdx s).opaqueDrawCount +
          (updateIndirectDrawBuffers sqrtFn scene frameIdx
            s).transparentDrawCount ≤ scene.instances.length)) := by
  have hcore : ∀ (sqrtFn : ℚ → ℚ) (meshes : List MeshQ)
      (materials : List MaterialQ) (instances : List InstanceQ)
      (planes : List PlaneQ),
      (rebuildDrawCommands sqrtFn meshes materials instances
          planes).opaqueCmds.length +
        (rebuildDrawCommands sqrtFn meshes materials instances
          planes).transparentCmds.length ≤ instances.length ∧
      (rebuildDrawCommands sqrtFn meshes materials instances
          planes).transparentCmds.length ≤ min instances.length 500 := by
    intro sqrtFn meshes materials instances planes
    constructor
    · have := rebuildGo_length_le sqrtFn meshes materials planes
        (min instances.length 500) instances 0 ⟨[], []⟩
      simpa [rebuildDrawCommands_def] using this
    · have := rebuildGo_transparent_cap sqrtFn meshes materials planes
        (min instances.length 500) instances 0 ⟨[], []⟩
      simpa [rebuildDrawCommands_def] using this
  refine ⟨hcore, ?_⟩
  intro sqrtFn scene frameIdx s
  simp only [updateIndirectDrawBuffers]
  split
  · exact Or.inl rfl
  · split
    · refine Or.inr ⟨?_, ?_⟩
      · simp [Function.update_same, rebuildBuffer]
      · exact (hcore sqrtFn scene.meshes scene.materials scene.instances
          (sceneFrustum sqrtFn scene).planes).1
    · split
      · refine Or.inr ⟨?_, ?_⟩
        · simp [Function.update_same, rebuildBuffer]
        · exact (hcore sqrtFn scene.meshes scene.materials scene.instances
            (sceneFrustum sqrtFn scene).planes).1
      · exact Or.inl rfl

/-- C10.  The opaque/transparent draw counts are one shared pair of
fields, not per-slot values: the getters take no slot argument, and
after refreshing slot `j` (here following a refresh of any slot `i`)
they return the counts of slot `j`'s rebuild no matter which slot is
being drawn, while the refresh of slot `j` leaves every other slot's
buffer contents untouched. -/
theorem claim10_shared_draw_counts (sqrtFn : ℚ → ℚ) (sceneA sceneB : SceneQ)
    (i j : Fin maxFramesInFlight) (s : IndirectDrawState)
    (h1 : (updateIndirectDrawBuffers sqrtFn sceneA i s).mappedEmpty = false)
    (h2 : (updateIndirectDrawBuffers sqrtFn sceneA i s).indirectDrawCount ≠ 0)
    (h3 : cameraChangedCheck (updateIndirectDrawBuffers sqrtFn sceneA i s) j
      sceneB.cameraViewProj = true) :
    getOpaqueDrawCount (updateIndirectDrawBuffers sqrtFn sceneB j
        (updateIndirectDrawBuffers sqrtFn sceneA i s)) =
      (rebuildDrawCommands sqrtFn sceneB.meshes sceneB.materials
        sceneB.instances (sceneFrustum sqrtFn
          sceneB).planes).opaqueCmds.length ∧
    getTransparentDrawCount (updateIndirectDrawBuffers sqrtFn sceneB j
        (updateIndirectDrawBuffers sqrtFn sceneA i s)) =
      (rebuildDrawCommands sqrtFn sceneB.meshes sceneB.materials
        sceneB.instances (sceneFrustum sqrtFn
          sceneB).planes).transparentCmds.length ∧
    (∀ k, ¬k = j →
      (updateIndirectDrawBuffers sqrtFn sceneB j
        (updateIndirectDrawBuffers sqrtFn sceneA i s)).buffers k =
      (updateIndirectDrawBuffers sqrtFn sceneA i s).buffers k) := by
  revert h1 h2 h3
  generalize updateIndirectDrawBuffers sqrtFn sceneA i s = s1
  intro h1 h2 h3
  have hguard : (s1.mappedEmpty || s1.indirectDrawCount == 0) = false := by
    rw [h1]
    simpa using h2
  simp only [updateIndirectDrawBuffers, hguard, h3]
  refine ⟨rfl, rfl, ?_⟩
  intro k hk
  simp only [Bool.false_eq_true, if_false, if_true]
  exact Function.update_noteq hk _ _

/-- C10, witness: refresh slot 0 from a fresh state, then refresh
slot 1; the counts readable for any draw come from the slot-1 refresh
and slot 0's buffer is untouched by it. -/
theorem claim10_witness :
    getOpaqueDrawCount (updateIndirectDrawBuffers ratSqrt wSceneOne wSlot1
        (updateIndirectDrawBuffers ratSqrt wSceneOne wSlot0 wStateFresh)) =
      (rebuildDrawCommands ratSqrt wSceneOne.meshes wSceneOne.materials
        wSceneOne.instances (sceneFrustum ratSqrt
          wSceneOne).planes).opaqueCmds.length ∧
    getTransparentDrawCount (updateIndirectDrawBuffers ratSqrt wSceneOne wSlot1
        (updateIndirectDrawBuffers ratSqrt wSceneOne wSlot0 wStateFresh)) =
      (rebuildDrawCommands ratSqrt wSceneOne.meshes wSceneOne.materials
        wSceneOne.instances (sceneFrustum ratSqrt
          wSceneOne).planes).transparentCmds.length ∧
    (∀ k, ¬k = wSlot1 →
      (updateIndirectDrawBuffers ratSqrt wSceneOne wSlot1
        (updateIndirectDrawBuffers ratSqrt wSceneOne wSlot0
          wStateFresh)).buffers k =
      (updateIndirectDrawBuffers ratSqrt wSceneOne wSlot0
        wStateFresh).buffers k) :=
  claim10_shared_draw_counts ratSqrt wSceneOne wSceneOne wSlot0 wSlot1
    wStateFresh (by decide) (by decide) (by decide)

end CG25
